import Mathlib

/-!
# Forex-Backend — verification of spec claims against the source

Shallow embedding of the parts of the Forex-Backend code base that the
frozen claims are about, together with theorems settling each claim.

Conventions:
* Python floats are modelled as rationals (`ℚ`); the claims under
  consideration are structural (which formula is computed), not about
  floating-point rounding.
* Python dicts that are used as ordered key/value records are modelled as
  association lists (`List (String × α)` or a `Json` object).
* Stateful services are modelled by explicit state records and transition
  functions; the async worker pool is modelled by run-to-completion events
  (one event = one atomic worker iteration or one enqueue call), which is
  exactly the "quiescent point" granularity the spec quantifies over.
-/

namespace ForexBackend

/-! ## AI forex engine — technical indicators

Embedding of `app/ai_forex_engine.py` (`calculate_macd`, `_calculate_ema`).
-/

namespace AiForexEngine

structure MacdResult where
  macd : ℚ
  signal : ℚ
  histogram : ℚ
deriving DecidableEq, Repr

/-- `_calculate_ema(prices, period)` from `app/ai_forex_engine.py:180`:
multiplier `2/(period+1)`, seeded with `prices[0]`, folded over the rest.
The Python code indexes `prices[0]` unconditionally; it is only called on
non-empty lists, and the `[]` case here is unreachable from
`calculate_macd`. -/
def calculate_ema (prices : List ℚ) (period : ℕ) : ℚ :=
  match prices with
  | [] => 0
  | p :: rest =>
    let multiplier : ℚ := 2 / (period + 1)
    rest.foldl (fun ema price => price * multiplier + ema * (1 - multiplier)) p

/-- `calculate_macd(prices)` from `app/ai_forex_engine.py:159`. Note that
the code computes the signal line as `_calculate_ema([macd_line], 9)`,
i.e. the 9-period EMA of the single-element list holding the MACD value. -/
def calculate_macd (prices : List ℚ) : MacdResult :=
  if prices.length < 26 then ⟨0, 0, 0⟩
  else
    let ema_12 := calculate_ema prices 12
    let ema_26 := calculate_ema prices 26
    let macd_line := ema_12 - ema_26
    let signal_line := calculate_ema [macd_line] 9
    ⟨macd_line, signal_line, macd_line - signal_line⟩

/-- The EMA of a one-element series is its seed. -/
theorem calculate_ema_singleton (x : ℚ) (period : ℕ) :
    calculate_ema [x] period = x := rfl

end AiForexEngine

open AiForexEngine in
/-- C1: `calculate_macd` returns all zeroes on fewer than 26 samples; on at
least 26 samples it returns `macd = EMA(12) − EMA(26)` of the prices (EMA
with multiplier `2/(period+1)` seeded with the first sample), the signal is
the 9-period EMA of the MACD line, and `histogram = macd − signal`. -/
theorem macd_matches_spec (prices : List ℚ) :
    (prices.length < 26 → calculate_macd prices = ⟨0, 0, 0⟩) ∧
    (26 ≤ prices.length →
      (calculate_macd prices).macd
          = calculate_ema prices 12 - calculate_ema prices 26 ∧
      (calculate_macd prices).signal
          = calculate_ema [(calculate_macd prices).macd] 9 ∧
      (calculate_macd prices).histogram
          = (calculate_macd prices).macd - (calculate_macd prices).signal) := by
  constructor
  · intro h
    simp [calculate_macd, h]
  · intro h
    have hnot : ¬ prices.length < 26 := not_lt.mpr h
    refine ⟨?_, ?_, ?_⟩ <;> simp [calculate_macd, hnot]

open AiForexEngine in
/-- Witness for C1: a 5-sample history yields the zero result, and on a
concrete 26-sample history the MACD line is the difference of the two
EMAs. -/
theorem macd_matches_spec_witness :
    calculate_macd (List.replicate 5 (1 : ℚ)) = ⟨0, 0, 0⟩ ∧
    (calculate_macd (List.replicate 26 (1 : ℚ))).macd
      = calculate_ema (List.replicate 26 (1 : ℚ)) 12
        - calculate_ema (List.replicate 26 (1 : ℚ)) 26 := by
  refine ⟨(macd_matches_spec _).1 (by simp), ?_⟩
  exact ((macd_matches_spec _).2 (by simp)).1

/-! ## JSON values and the API response envelope

Embedding of `app/schemas/api_response.py` and the body-rewriting part of
`api_response_envelope_middleware` in `app/main.py:497`.
-/

/-- JSON values; Python dicts keep insertion order, so objects are ordered
association lists. -/
inductive Json where
  | null
  | bool (b : Bool)
  | num (q : ℚ)
  | str (s : String)
  | arr (items : List Json)
  | obj (fields : List (String × Json))
deriving Repr

/-- Python `str.startswith` / Starlette path prefix test, spelled over the
character list so that it evaluates inside the kernel. -/
def starts_with (s pre : String) : Bool := pre.toList.isPrefixOf s.toList

namespace Schemas

/-- Key membership in a JSON object's field list (`k in payload.keys()`). -/
def has_field (fields : List (String × Json)) (k : String) : Bool :=
  fields.any (fun f => f.1 == k)

/-- `payload.get(k)` on a JSON object's field list. -/
def lookup_field (fields : List (String × Json)) (k : String) : Option Json :=
  (fields.find? (fun f => f.1 == k)).map (fun f => f.2)

/-- `is_api_response_payload` from `app/schemas/api_response.py:27`:
a dict whose keys include `status`, `message` and `data`. -/
def is_api_response_payload : Json → Bool
  | .obj fields =>
      has_field fields "status" && has_field fields "message"
        && has_field fields "data"
  | _ => false

/-- `normalize_data` from `app/schemas/api_response.py:17`: `None` stays
`None`, dicts pass through, lists become `{items}`, scalars become
`{value}`. -/
def normalize_data : Json → Option Json
  | .null => none
  | .obj fields => some (.obj fields)
  | .arr items => some (.obj [("items", .arr items)])
  | j => some (.obj [("value", j)])

/-- `success_payload` from `app/schemas/api_response.py:33`. The pydantic
dump uses `exclude_none=True`, so a `None` data or request id leaves the
corresponding key out entirely. -/
def success_payload (data : Json) (message : String) (request_id : Option String) :
    Json :=
  .obj ([("status", .str "success"), ("message", .str message)]
    ++ (match normalize_data data with
        | some d => [("data", d)]
        | none => [])
    ++ (match request_id with
        | some rid => [("requestId", .str rid)]
        | none => []))

/-- `error_payload` from `app/schemas/api_response.py:47` (same dump rules
as `success_payload`). -/
def error_payload (message : String) (data : Json) (request_id : Option String) :
    Json :=
  .obj ([("status", .str "error"), ("message", .str message)]
    ++ (match normalize_data data with
        | some d => [("data", d)]
        | none => [])
    ++ (match request_id with
        | some rid => [("requestId", .str rid)]
        | none => []))

/-- Python `str.strip()`: drop whitespace from both ends (spelled out over
the character list so that it evaluates inside the kernel). -/
def py_strip (s : String) : String :=
  String.mk ((((s.toList).dropWhile Char.isWhitespace).reverse.dropWhile
    Char.isWhitespace).reverse)

/-- `_derive_success_message` from `app/main.py:436`: the body's `message`
value when it is a string with non-blank strip (returned stripped),
otherwise `"OK"`. -/
def derive_success_message : Json → String
  | .obj fields =>
      match lookup_field fields "message" with
      | some (.str s) => if py_strip s = "" then "OK" else py_strip s
      | _ => "OK"
  | _ => "OK"

/-- The `payload.setdefault("requestId", request_id)` step of
`api_response_envelope_middleware` (`app/main.py:525`); only runs when a
request id is known, and only touches dict payloads. -/
def fill_request_id (j : Json) (request_id : Option String) : Json :=
  match j, request_id with
  | .obj fields, some rid =>
      if has_field fields "requestId" then .obj fields
      else .obj (fields ++ [("requestId", .str rid)])
  | j, _ => j

/-- The body rewrite of `api_response_envelope_middleware`
(`app/main.py:523`): envelope-shaped bodies get the correlation id filled
in, everything else is wrapped via `success_payload`. -/
def envelope_transform (decoded : Json) (request_id : Option String) : Json :=
  if is_api_response_payload decoded then fill_request_id decoded request_id
  else success_payload decoded (derive_success_message decoded) request_id

/-- The middleware guards around the body rewrite (`app/main.py:501`):
only API paths that are not the websocket mount, non-OPTIONS methods,
status < 400, a JSON content type and a decodable body are rewritten;
`none` means the original response passes through unchanged. -/
def api_response_envelope_middleware (path method : String) (status : ℕ)
    (content_type_json : Bool) (decoded : Option Json) (request_id : Option String) :
    Option Json :=
  if !(starts_with path "/api") || starts_with path "/api/ws"
      || method == "OPTIONS" || 400 ≤ status then none
  else if !content_type_json then none
  else
    match decoded with
    | none => none
    | some d => some (envelope_transform d request_id)

/-- The wrap exactly as the claim words it (refinement comparison
definition, written from the spec sentence, not from the source): wrapped
as status `success`, message = `body.message` verbatim when it is a string
else `"OK"`, `data: normalize(body)`, and a `requestId` key. -/
def claim_wrap (decoded : Json) (rid : String) : Json :=
  .obj [("status", .str "success"),
        ("message",
          match decoded with
          | .obj fields =>
              match lookup_field fields "message" with
              | some (.str s) => .str s
              | _ => .str "OK"
          | _ => .str "OK"),
        ("data", (normalize_data decoded).getD .null),
        ("requestId", .str rid)]

theorem has_field_append (l1 l2 : List (String × Json)) (k : String) :
    has_field (l1 ++ l2) k = (has_field l1 k || has_field l2 k) := by
  simp [has_field]

end Schemas

open Schemas in
/-- C5 counterexample: the claim says a non-envelope body is wrapped with
`message: body.message if it is a string else "OK"`; the code additionally
strips the string (`candidate.strip()` in `_derive_success_message`), so a
body whose `message` is `"hi "` is wrapped with message `"hi"`, not
`"hi "`. -/
theorem envelope_wrap_counterexample :
    is_api_response_payload (Json.obj [("message", Json.str "hi ")]) = false ∧
    envelope_transform (Json.obj [("message", Json.str "hi ")]) (some "req-1")
      ≠ claim_wrap (Json.obj [("message", Json.str "hi ")]) "req-1" := by
  refine ⟨rfl, ?_⟩
  simp [envelope_transform, claim_wrap, is_api_response_payload, has_field,
    lookup_field, success_payload, derive_success_message, normalize_data,
    show py_strip "hi " = "hi" from rfl]

open Schemas in
/-- C5 (amended): for bodies that already carry `status`, `message` and
`data`, the middleware body rewrite returns the body unchanged except that
a missing `requestId` is appended, and the rewrite is idempotent on such
bodies; every other JSON body is wrapped as status `success`, message =
the body's trimmed `message` when that is a string with non-blank trim
else `"OK"`, `data: normalize(body)` with the key omitted when the body is
JSON null, and the correlation id as `requestId`. -/
theorem envelope_transform_amended (decoded : Json) (rid : String) :
    (is_api_response_payload decoded = true →
      (envelope_transform decoded (some rid) = decoded ∨
        ∃ fields, decoded = Json.obj fields ∧
          has_field fields "requestId" = false ∧
          envelope_transform decoded (some rid)
            = Json.obj (fields ++ [("requestId", Json.str rid)])) ∧
      envelope_transform (envelope_transform decoded (some rid)) (some rid)
        = envelope_transform decoded (some rid)) ∧
    (is_api_response_payload decoded = false →
      envelope_transform decoded (some rid)
        = Json.obj ([("status", Json.str "success"),
            ("message", Json.str (derive_success_message decoded))]
            ++ (match normalize_data decoded with
                | some d => [("data", d)]
                | none => [])
            ++ [("requestId", Json.str rid)])) := by
  constructor
  · intro h
    match decoded, h with
    | Json.obj fields, h =>
      have h3 : (has_field fields "status" = true ∧ has_field fields "message" = true)
          ∧ has_field fields "data" = true := by
        simpa [is_api_response_payload, Bool.and_eq_true] using h
      by_cases hf : has_field fields "requestId" = true
      · constructor
        · left
          simp [envelope_transform, is_api_response_payload, h3.1.1, h3.1.2, h3.2,
            fill_request_id, hf]
        · simp [envelope_transform, is_api_response_payload, h3.1.1, h3.1.2, h3.2,
            fill_request_id, hf]
      · have hf' : has_field fields "requestId" = false := by
          simpa using hf
        constructor
        · right
          exact ⟨fields, rfl, hf', by
            simp [envelope_transform, is_api_response_payload, h3.1.1, h3.1.2, h3.2,
              fill_request_id, hf']⟩
        · have step : envelope_transform (Json.obj fields) (some rid)
              = Json.obj (fields ++ [("requestId", Json.str rid)]) := by
            simp [envelope_transform, is_api_response_payload, h3.1.1, h3.1.2, h3.2,
              fill_request_id, hf']
          rw [step]
          have hshape : is_api_response_payload
              (Json.obj (fields ++ [("requestId", Json.str rid)])) = true := by
            simp [is_api_response_payload, has_field_append, h3.1.1, h3.1.2, h3.2]
          have hreq : has_field (fields ++ [("requestId", Json.str rid)]) "requestId"
              = true := by
            simp [has_field_append, has_field]
          simp [envelope_transform, hshape, fill_request_id, hreq]
  · intro h
    simp [envelope_transform, h, success_payload]

open Schemas in
/-- Witness for C5: the amended theorem applied to a concrete
envelope-shaped body (unchanged modulo `requestId` fill) and a concrete
non-envelope body (wrapped). -/
theorem envelope_transform_amended_witness :
    (envelope_transform
        (Json.obj [("status", Json.str "success"), ("message", Json.str "hi"),
          ("data", Json.null)]) (some "req-2")
      = Json.obj [("status", Json.str "success"), ("message", Json.str "hi"),
          ("data", Json.null)] ∨
      ∃ fields,
        Json.obj [("status", Json.str "success"), ("message", Json.str "hi"),
          ("data", Json.null)] = Json.obj fields ∧
        has_field fields "requestId" = false ∧
        envelope_transform
          (Json.obj [("status", Json.str "success"), ("message", Json.str "hi"),
            ("data", Json.null)]) (some "req-2")
          = Json.obj (fields ++ [("requestId", Json.str "req-2")])) ∧
    envelope_transform (Json.obj [("x", Json.num 1)]) (some "req-3")
      = Json.obj ([("status", Json.str "success"),
          ("message", Json.str (derive_success_message (Json.obj [("x", Json.num 1)])))]
          ++ (match normalize_data (Json.obj [("x", Json.num 1)]) with
              | some d => [("data", d)]
              | none => [])
          ++ [("requestId", Json.str "req-3")]) := by
  refine ⟨((envelope_transform_amended _ "req-2").1 (by rfl)).1, ?_⟩
  exact (envelope_transform_amended (Json.obj [("x", Json.num 1)]) "req-3").2 (by rfl)

/-! ## The HTTP middleware chain

Embedding of the `@app.middleware("http")` functions of `app/main.py`.
Starlette/FastAPI builds the middleware stack so that the middleware
registered LAST is the OUTERMOST: `add_middleware` inserts at the front of
`user_middleware`, and `build_middleware_stack` wraps in reverse order.
The registration order in `app/main.py` is `request_id` (488),
`api_response_envelope` (497), `security_headers` (545),
`request_size_limit` (587), `auth_rate_limit` (611), `rate_limit` (643),
`strict_auth` (669); the request therefore traverses `strict_auth` →
`rate_limit` → `auth_rate_limit` → `request_size_limit` →
`security_headers` → `api_response_envelope` → `request_id` → route.
The envelope and request-id layers sit INSIDE the security-headers layer
and cannot remove headers it adds, so they are abstracted as the `inner`
handler below.  Token verification is an external oracle (`verify`).
-/

namespace Middleware

/-- A `Content-Length` header value: a parseable integer or garbage that
makes Python `int()` raise `ValueError`. -/
inductive ContentLength where
  | invalid
  | valid (n : ℤ)
deriving DecidableEq, Repr

structure Request where
  method : String
  path : String
  client_host : String
  /-- `Content-Length` header; `none` models an absent or empty header
  (falsy in `if content_length:`). -/
  content_length : Option ContentLength
  /-- Inbound `X-Request-ID` header, stripped; `none` when absent/blank.
  At middleware short-circuits the request-id middleware (innermost) has
  not run, so `_request_id_from_request` falls back to this header. -/
  x_request_id : Option String
deriving DecidableEq, Repr

structure Response where
  status : ℕ
  headers : List (String × String)
  body : Json
deriving Repr

/-- `response.headers[k] = v` (Starlette `MutableHeaders.__setitem__`):
replace the existing entry for the key, else append.  The chain never
creates duplicate keys, for which this matches Starlette exactly. -/
def set_header : List (String × String) → String → String → List (String × String)
  | [], k, v => [(k, v)]
  | h :: t, k, v => if h.1 == k then (k, v) :: t else h :: set_header t k v

def get_header (headers : List (String × String)) (k : String) : Option String :=
  (headers.find? (fun h => h.1 == k)).map (fun h => h.2)

/-- Headers of a fresh `JSONResponse` (content type only; the layers that
matter to the claims are modelled explicitly). -/
def json_response_headers : List (String × String) :=
  [("content-type", "application/json")]

structure SecurityConfig where
  enable_csp : Bool
  enable_hsts : Bool
  cors_max_age : ℕ
deriving DecidableEq, Repr

/-- The header mutations of `security_headers_middleware`
(`app/main.py:545`), applied to the response of the inner stack. -/
def security_headers_apply (cfg : SecurityConfig) (req : Request)
    (headers0 : List (String × String)) : List (String × String) :=
  let h1 := set_header headers0 "X-Content-Type-Options" "nosniff"
  let h2 := set_header h1 "X-Frame-Options" "DENY"
  let h3 := set_header h2 "Referrer-Policy" "no-referrer"
  let h4 := set_header h3 "Permissions-Policy" "geolocation=(), microphone=(), camera=()"
  let h5 := set_header h4 "Cross-Origin-Opener-Policy" "same-origin"
  let h6 := set_header h5 "Cross-Origin-Resource-Policy" "same-origin"
  let h7 := if cfg.enable_csp then
      set_header h6 "Content-Security-Policy" "default-src \x27none\x27; frame-ancestors \x27none\x27;"
    else h6
  let h8 := if cfg.enable_hsts then
      set_header h7 "Strict-Transport-Security" "max-age=31536000; includeSubDomains"
    else h7
  let h9 := if starts_with req.path "/api" then set_header h8 "Cache-Control" "no-store" else h8
  if req.method == "OPTIONS" then
    set_header h9 "Access-Control-Max-Age" (toString cfg.cors_max_age)
  else h9

structure RateLimitConfig where
  enabled : Bool
  limit : ℕ
  window : ℤ
deriving DecidableEq, Repr

/-- `_rate_limit_exempt` from `app/main.py:571`. -/
def rate_limit_exempt : List String :=
  ["/", "/health", "/healthz", "/api/health", "/docs", "/openapi.json", "/redoc"]

/-- `_auth_rate_limited_paths` from `app/main.py:578`. -/
def auth_rate_limited_paths : List String :=
  ["/auth/password-reset", "/auth/email-verification", "/auth/login", "/auth/signup"]

/-- The shared bucket logic of both rate-limit middlewares
(`app/main.py:625`/`654`): pop timestamps `≤ now − window` from the left
of the deque, deny without recording when the bucket is full, else record
`now`.  Returns (allowed?, updated bucket). -/
def rate_limit_step (limit : ℕ) (window : ℤ) (now : ℚ) (bucket : List ℚ) :
    Bool × List ℚ :=
  let window_start : ℚ := now - (window : ℚ)
  let pruned := bucket.dropWhile (fun t => decide (t ≤ window_start))
  if limit ≤ pruned.length then (false, pruned)
  else (true, pruned ++ [now])

/-- `defaultdict(deque)` stores keyed by client host (global limiter) or
`host:path` (auth limiter). -/
abbrev BucketStore := List (String × List ℚ)

def store_get (store : BucketStore) (k : String) : List ℚ :=
  ((store.find? (fun e => e.1 == k)).map (fun e => e.2)).getD []

def store_set (store : BucketStore) (k : String) (v : List ℚ) : BucketStore :=
  if store.any (fun e => e.1 == k) then
    store.map (fun e => if e.1 == k then (k, v) else e)
  else store ++ [(k, v)]

structure AppState where
  rate_limit_store : BucketStore
  auth_rate_limit_store : BucketStore
deriving DecidableEq, Repr

structure AuthFailure where
  status : ℕ
  detail : String
deriving DecidableEq, Repr

/-- One middleware layer: given the rest of the stack, produce the
response and the updated process state. -/
abbrev Layer := (Request → AppState → Response × AppState) → Request → AppState →
  Response × AppState

/-- `security_headers_middleware` (`app/main.py:545`). -/
def security_headers_middleware (cfg : SecurityConfig) : Layer :=
  fun next_app req st =>
    let r := next_app req st
    ({ r.1 with headers := security_headers_apply cfg req r.1.headers }, r.2)

/-- `request_size_limit_middleware` (`app/main.py:587`). -/
def request_size_limit_middleware (max_bytes : ℤ) : Layer :=
  fun next_app req st =>
    if (req.method == "POST" || req.method == "PUT" || req.method == "PATCH")
        && starts_with req.path "/api" then
      match req.content_length with
      | some (.valid n) =>
          if max_bytes < n then
            ({ status := 413, headers := json_response_headers,
               body := Schemas.error_payload "Request payload too large" Json.null
                 req.x_request_id }, st)
          else next_app req st
      | some .invalid =>
          ({ status := 400, headers := json_response_headers,
             body := Schemas.error_payload "Invalid Content-Length header" Json.null
               req.x_request_id }, st)
      | none => next_app req st
    else next_app req st

/-- `auth_rate_limit_middleware` (`app/main.py:611`). -/
def auth_rate_limit_middleware (cfg : RateLimitConfig) (now : ℚ) : Layer :=
  fun next_app req st =>
    if !cfg.enabled then next_app req st
    else if req.method == "OPTIONS" then next_app req st
    else if !(auth_rate_limited_paths.contains req.path) then next_app req st
    else
      let key := req.client_host ++ ":" ++ req.path
      let r := rate_limit_step cfg.limit cfg.window now
        (store_get st.auth_rate_limit_store key)
      let st2 := { st with
        auth_rate_limit_store := store_set st.auth_rate_limit_store key r.2 }
      if r.1 then next_app req st2
      else
        ({ status := 429,
           headers := set_header json_response_headers "Retry-After" (toString cfg.window),
           body := Schemas.error_payload "Too many auth requests. Please wait and retry."
             Json.null req.x_request_id }, st2)

/-- `rate_limit_middleware` (`app/main.py:643`), the global limiter. -/
def rate_limit_middleware (cfg : RateLimitConfig) (now : ℚ) : Layer :=
  fun next_app req st =>
    if !cfg.enabled then next_app req st
    else if rate_limit_exempt.contains req.path || starts_with req.path "/docs" then
      next_app req st
    else
      let r := rate_limit_step cfg.limit cfg.window now
        (store_get st.rate_limit_store req.client_host)
      let st2 := { st with
        rate_limit_store := store_set st.rate_limit_store req.client_host r.2 }
      if r.1 then next_app req st2
      else
        ({ status := 429, headers := json_response_headers,
           body := Schemas.error_payload "Rate limit exceeded" Json.null
             req.x_request_id }, st2)

/-- `strict_auth_middleware` (`app/main.py:669`); `verify` is the external
token-verification oracle (`verify_http_request`), returning the raised
`HTTPException`-like failure if any. -/
def strict_auth_middleware (verify : Request → Option AuthFailure) : Layer :=
  fun next_app req st =>
    if req.method == "OPTIONS" then next_app req st
    else if starts_with req.path "/api" then
      match verify req with
      | some failure =>
          ({ status := failure.status, headers := json_response_headers,
             body := Schemas.error_payload failure.detail Json.null
               req.x_request_id }, st)
      | none => next_app req st
    else next_app req st

structure AppConfig where
  security : SecurityConfig
  rate_limit : RateLimitConfig
  auth_rate_limit : RateLimitConfig
  max_request_body_bytes : ℤ
deriving DecidableEq, Repr

/-- The composed middleware stack in Starlette nesting order (see the
section comment); `inner` is everything inside the security-headers layer
(envelope middleware, request-id middleware and the route). -/
def app_handle (cfg : AppConfig) (verify : Request → Option AuthFailure)
    (inner : Request → Response) (now : ℚ) (req : Request) (st : AppState) :
    Response × AppState :=
  strict_auth_middleware verify
    (rate_limit_middleware cfg.rate_limit now
      (auth_rate_limit_middleware cfg.auth_rate_limit now
        (request_size_limit_middleware cfg.max_request_body_bytes
          (security_headers_middleware cfg.security
            (fun rq s => (inner rq, s))))))
    req st

/-- Run a sequence of timestamped requests through the stack, threading
the rate-limit state. -/
def app_run (cfg : AppConfig) (verify : Request → Option AuthFailure)
    (inner : Request → Response) (st : AppState) :
    List (ℚ × Request) → List Response
  | [] => []
  | (now, req) :: rest =>
      let r := app_handle cfg verify inner now req st
      r.1 :: app_run cfg verify inner r.2 rest

/-- The strict-auth layer passes the request on. -/
def auth_gate_passes (verify : Request → Option AuthFailure) (req : Request) : Bool :=
  req.method == "OPTIONS" || !(starts_with req.path "/api") || (verify req).isNone

/-- The global limiter lets the request through (disabled, exempt path, or
bucket not full); `store` is the limiter's bucket store. -/
def global_limiter_allows (cfg : RateLimitConfig) (now : ℚ) (req : Request)
    (store : BucketStore) : Bool :=
  !cfg.enabled || rate_limit_exempt.contains req.path || starts_with req.path "/docs"
    || (rate_limit_step cfg.limit cfg.window now
          (store_get store req.client_host)).1

/-- The auth limiter lets the request through; `store` is the auth
limiter's bucket store. -/
def auth_limiter_allows (cfg : RateLimitConfig) (now : ℚ) (req : Request)
    (store : BucketStore) : Bool :=
  !cfg.enabled || req.method == "OPTIONS" || !(auth_rate_limited_paths.contains req.path)
    || (rate_limit_step cfg.limit cfg.window now
          (store_get store (req.client_host ++ ":" ++ req.path))).1

/-- The payload-size layer lets the request through. -/
def size_limit_passes (max_bytes : ℤ) (req : Request) : Bool :=
  !((req.method == "POST" || req.method == "PUT" || req.method == "PATCH")
      && starts_with req.path "/api")
    || (match req.content_length with
        | some (.valid n) => decide (n ≤ max_bytes)
        | some .invalid => false
        | none => true)

theorem get_header_set_header_self (hs : List (String × String)) (k v : String) :
    get_header (set_header hs k v) k = some v := by
  induction hs with
  | nil => simp [set_header, get_header]
  | cons h t ih =>
    by_cases hh : h.1 == k
    · simp [set_header, hh, get_header]
    · simp only [set_header, hh, if_neg]
      simp only [Bool.not_eq_true] at hh
      simpa [get_header, List.find?_cons, hh] using ih

theorem get_header_set_header_of_ne (hs : List (String × String)) (k k' v : String)
    (hne : ¬ k' = k) :
    get_header (set_header hs k' v) k = get_header hs k := by
  induction hs with
  | nil => simp [set_header, get_header, hne]
  | cons h t ih =>
    by_cases hh : h.1 == k'
    · have h1 : h.1 = k' := by simpa using hh
      simp [set_header, hh, get_header, List.find?_cons, hne, h1]
    · simp only [set_header, hh, if_neg]
      simp only [get_header, List.find?_cons] at ih ⊢
      by_cases hk : h.1 == k
      · simp [hk]
      · simpa [hk] using ih

/-- After the security-headers layer runs, the six unconditional headers
are present with their configured values, whatever the inner response
was. -/
theorem security_headers_apply_values (cfg : SecurityConfig) (req : Request)
    (hs : List (String × String)) :
    get_header (security_headers_apply cfg req hs) "X-Content-Type-Options"
        = some "nosniff" ∧
    get_header (security_headers_apply cfg req hs) "X-Frame-Options" = some "DENY" ∧
    get_header (security_headers_apply cfg req hs) "Referrer-Policy"
        = some "no-referrer" ∧
    get_header (security_headers_apply cfg req hs) "Permissions-Policy"
        = some "geolocation=(), microphone=(), camera=()" ∧
    get_header (security_headers_apply cfg req hs) "Cross-Origin-Opener-Policy"
        = some "same-origin" ∧
    get_header (security_headers_apply cfg req hs) "Cross-Origin-Resource-Policy"
        = some "same-origin" := by
  unfold security_headers_apply
  refine ⟨?_, ?_, ?_, ?_, ?_, ?_⟩ <;>
    (split <;> split <;> split <;> split) <;>
    (repeat first
      | rw [get_header_set_header_self]
      | rw [get_header_set_header_of_ne]) <;>
    decide

/-- The six unconditional security headers and their values
(`app/main.py:548`-`553`). -/
def security_header_values : List (String × String) :=
  [("X-Content-Type-Options", "nosniff"), ("X-Frame-Options", "DENY"),
   ("Referrer-Policy", "no-referrer"),
   ("Permissions-Policy", "geolocation=(), microphone=(), camera=()"),
   ("Cross-Origin-Opener-Policy", "same-origin"),
   ("Cross-Origin-Resource-Policy", "same-origin")]

theorem strict_auth_middleware_pass (verify : Request → Option AuthFailure)
    (next_app : Request → AppState → Response × AppState) (req : Request)
    (st : AppState) (h : auth_gate_passes verify req = true) :
    strict_auth_middleware verify next_app req st = next_app req st := by
  by_cases h1 : (req.method == "OPTIONS") = true
  · simp [strict_auth_middleware, h1]
  · have h1' : (req.method == "OPTIONS") = false := by simpa using h1
    by_cases h2 : starts_with req.path "/api" = true
    · have hv : verify req = none := by
        simp [auth_gate_passes, h1', h2] at h
        simpa [Option.isNone_iff_eq_none] using h
      simp [strict_auth_middleware, h1', h2, hv]
    · have h2' : starts_with req.path "/api" = false := by simpa using h2
      simp [strict_auth_middleware, h1', h2']

theorem rate_limit_middleware_pass (cfg : RateLimitConfig) (now : ℚ)
    (next_app : Request → AppState → Response × AppState) (req : Request)
    (st : AppState)
    (h : global_limiter_allows cfg now req st.rate_limit_store = true) :
    ∃ st2, rate_limit_middleware cfg now next_app req st = next_app req st2
      ∧ st2.auth_rate_limit_store = st.auth_rate_limit_store := by
  by_cases h1 : cfg.enabled = true
  · by_cases hc : req.path ∈ rate_limit_exempt
    · exact ⟨st, by simp [rate_limit_middleware, h1, hc], rfl⟩
    · by_cases hs : starts_with req.path "/docs" = true
      · exact ⟨st, by simp [rate_limit_middleware, h1, hc, hs], rfl⟩
      · have hstep : (rate_limit_step cfg.limit cfg.window now
            (store_get st.rate_limit_store req.client_host)).1 = true := by
          simpa [global_limiter_allows, h1, hc, hs] using h
        refine ⟨{ st with rate_limit_store := store_set st.rate_limit_store req.client_host (rate_limit_step cfg.limit cfg.window now (store_get st.rate_limit_store req.client_host)).2 }, ?_, rfl⟩
        simp [rate_limit_middleware, h1, hc, hs, hstep]
  · have h1' : cfg.enabled = false := by simpa using h1
    exact ⟨st, by simp [rate_limit_middleware, h1'], rfl⟩

theorem rate_limit_middleware_deny (cfg : RateLimitConfig) (now : ℚ)
    (next_app : Request → AppState → Response × AppState) (req : Request)
    (st : AppState)
    (h : global_limiter_allows cfg now req st.rate_limit_store = false) :
    ∃ st2, rate_limit_middleware cfg now next_app req st
      = ({ status := 429, headers := json_response_headers,
           body := Schemas.error_payload "Rate limit exceeded" Json.null
             req.x_request_id }, st2) := by
  have hparts := h
  unfold global_limiter_allows at hparts
  rw [Bool.or_eq_false_iff] at hparts
  rw [Bool.or_eq_false_iff] at hparts
  rw [Bool.or_eq_false_iff] at hparts
  obtain ⟨⟨⟨he, hc⟩, hs⟩, hstep⟩ := hparts
  have he' : cfg.enabled = true := by simpa using he
  have hc' : req.path ∉ rate_limit_exempt := by simpa using hc
  refine ⟨{ st with rate_limit_store := store_set st.rate_limit_store req.client_host (rate_limit_step cfg.limit cfg.window now (store_get st.rate_limit_store req.client_host)).2 }, ?_⟩
  simp [rate_limit_middleware, he', hc', hs, hstep]

theorem auth_rate_limit_middleware_pass (cfg : RateLimitConfig) (now : ℚ)
    (next_app : Request → AppState → Response × AppState) (req : Request)
    (st : AppState)
    (h : auth_limiter_allows cfg now req st.auth_rate_limit_store = true) :
    ∃ st2, auth_rate_limit_middleware cfg now next_app req st = next_app req st2 := by
  by_cases h1 : cfg.enabled = true
  · by_cases h2 : (req.method == "OPTIONS") = true
    · exact ⟨st, by simp [auth_rate_limit_middleware, h1, h2]⟩
    · have h2' : (req.method == "OPTIONS") = false := by simpa using h2
      by_cases h3 : req.path ∈ auth_rate_limited_paths
      · have hstep : (rate_limit_step cfg.limit cfg.window now
            (store_get st.auth_rate_limit_store
              (req.client_host ++ ":" ++ req.path))).1 = true := by
          simpa [auth_limiter_allows, h1, h2', h3] using h
        refine ⟨{ st with auth_rate_limit_store := store_set st.auth_rate_limit_store (req.client_host ++ ":" ++ req.path) (rate_limit_step cfg.limit cfg.window now (store_get st.auth_rate_limit_store (req.client_host ++ ":" ++ req.path))).2 }, ?_⟩
        simp [auth_rate_limit_middleware, h1, h2', h3, hstep]
      · exact ⟨st, by simp [auth_rate_limit_middleware, h1, h2', h3]⟩
  · have h1' : cfg.enabled = false := by simpa using h1
    exact ⟨st, by simp [auth_rate_limit_middleware, h1']⟩

theorem request_size_limit_middleware_pass (max_bytes : ℤ)
    (next_app : Request → AppState → Response × AppState) (req : Request)
    (st : AppState) (h : size_limit_passes max_bytes req = true) :
    request_size_limit_middleware max_bytes next_app req st = next_app req st := by
  by_cases hm : ((req.method == "POST" || req.method == "PUT"
      || req.method == "PATCH") && starts_with req.path "/api") = true
  · cases hcl : req.content_length with
    | none => simp [request_size_limit_middleware, hm, hcl]
    | some cl =>
      cases cl with
      | invalid =>
        exfalso
        simp [size_limit_passes, hm, hcl] at h
      | valid n =>
        have hn : n ≤ max_bytes := by simpa [size_limit_passes, hm, hcl] using h
        have hlt : ¬ max_bytes < n := not_lt.mpr hn
        simp [request_size_limit_middleware, hm, hcl, hlt]
  · have hm' : ((req.method == "POST" || req.method == "PUT"
        || req.method == "PATCH") && starts_with req.path "/api") = false := by
      simpa using hm
    simp [request_size_limit_middleware, hm']

/-- When CSP is enabled, the security-headers layer sets the
`Content-Security-Policy` header (`app/main.py:556`). -/
theorem security_headers_apply_csp (cfg : SecurityConfig) (req : Request)
    (hs : List (String × String)) (h : cfg.enable_csp = true) :
    get_header (security_headers_apply cfg req hs) "Content-Security-Policy"
      = some "default-src \x27none\x27; frame-ancestors \x27none\x27;" := by
  unfold security_headers_apply
  rw [h]
  (split <;> split <;> split <;> split) <;>
    first
      | ((repeat first
          | rw [get_header_set_header_self]
          | rw [get_header_set_header_of_ne]) <;> decide)
      | simp_all

/-- When HSTS is enabled, the security-headers layer sets the
`Strict-Transport-Security` header (`app/main.py:560`). -/
theorem security_headers_apply_hsts (cfg : SecurityConfig) (req : Request)
    (hs : List (String × String)) (h : cfg.enable_hsts = true) :
    get_header (security_headers_apply cfg req hs) "Strict-Transport-Security"
      = some "max-age=31536000; includeSubDomains" := by
  unfold security_headers_apply
  rw [h]
  (split <;> split <;> split <;> split) <;>
    first
      | ((repeat first
          | rw [get_header_set_header_self]
          | rw [get_header_set_header_of_ne]) <;> decide)
      | simp_all

/-- The auth limiter's 429 short-circuit (`app/main.py:629`): bare JSON
error envelope plus a `Retry-After` header. -/
theorem auth_rate_limit_middleware_deny (cfg : RateLimitConfig) (now : ℚ)
    (next_app : Request → AppState → Response × AppState) (req : Request)
    (st : AppState)
    (h : auth_limiter_allows cfg now req st.auth_rate_limit_store = false) :
    ∃ st2, auth_rate_limit_middleware cfg now next_app req st
      = ({ status := 429,
           headers := set_header json_response_headers "Retry-After"
             (toString cfg.window),
           body := Schemas.error_payload
             "Too many auth requests. Please wait and retry."
             Json.null req.x_request_id }, st2) := by
  have hparts := h
  unfold auth_limiter_allows at hparts
  rw [Bool.or_eq_false_iff] at hparts
  rw [Bool.or_eq_false_iff] at hparts
  rw [Bool.or_eq_false_iff] at hparts
  obtain ⟨⟨⟨he, hm⟩, hp⟩, hstep⟩ := hparts
  have he' : cfg.enabled = true := by simpa using he
  have hp' : req.path ∈ auth_rate_limited_paths := by simpa using hp
  refine ⟨{ st with auth_rate_limit_store := store_set st.auth_rate_limit_store (req.client_host ++ ":" ++ req.path) (rate_limit_step cfg.limit cfg.window now (store_get st.auth_rate_limit_store (req.client_host ++ ":" ++ req.path))).2 }, ?_⟩
  simp [auth_rate_limit_middleware, he', hm, hp', hstep]

/-- The payload-size layer's short-circuits (`app/main.py:592`): 413 for
an oversized declared length, 400 for an unparseable one; either way a
bare JSON error envelope and no state change. -/
theorem request_size_limit_middleware_deny (max_bytes : ℤ)
    (next_app : Request → AppState → Response × AppState) (req : Request)
    (st : AppState) (h : size_limit_passes max_bytes req = false) :
    request_size_limit_middleware max_bytes next_app req st
      = ({ status := 413, headers := json_response_headers,
           body := Schemas.error_payload "Request payload too large"
             Json.null req.x_request_id }, st)
    ∨ request_size_limit_middleware max_bytes next_app req st
      = ({ status := 400, headers := json_response_headers,
           body := Schemas.error_payload "Invalid Content-Length header"
             Json.null req.x_request_id }, st) := by
  by_cases hm : ((req.method == "POST" || req.method == "PUT"
      || req.method == "PATCH") && starts_with req.path "/api") = true
  · cases hcl : req.content_length with
    | none =>
      exfalso
      simp [size_limit_passes, hm, hcl] at h
    | some cl =>
      cases cl with
      | invalid =>
        right
        simp [request_size_limit_middleware, hm, hcl]
      | valid n =>
        have hn : ¬ (n ≤ max_bytes) := by
          simpa [size_limit_passes, hm, hcl] using h
        have hlt : max_bytes < n := not_le.mp hn
        left
        simp [request_size_limit_middleware, hm, hcl, hlt]
  · exfalso
    have hm' : ((req.method == "POST" || req.method == "PUT"
        || req.method == "PATCH") && starts_with req.path "/api") = false := by
      simpa using hm
    simp [size_limit_passes, hm'] at h

end Middleware

open Middleware in
/-- Configuration for the concrete middleware scenarios: CSP/HSTS on,
global limiter `RATE_LIMIT_MAX=3` / `RATE_LIMIT_WINDOW_SECONDS=60`, auth
limiter at its defaults (10/300), default payload cap. -/
def demo_app_config : AppConfig :=
  { security := { enable_csp := true, enable_hsts := true, cors_max_age := 86400 },
    rate_limit := { enabled := true, limit := 3, window := 60 },
    auth_rate_limit := { enabled := true, limit := 10, window := 300 },
    max_request_body_bytes := 1048576 }

open Middleware in
/-- A route (plus envelope/request-id layers) answering 200 with a JSON
body. -/
def demo_ok_route : Request → Response :=
  fun _ => { status := 200, headers := json_response_headers, body := Json.null }

open Middleware in
/-- Token verification oracle that accepts every request. -/
def demo_verify_ok : Request → Option AuthFailure := fun _ => none

open Middleware in
def demo_get_request : Request :=
  { method := "GET", path := "/api/forex/rates", client_host := "203.0.113.5",
    content_length := none, x_request_id := none }

open Middleware in
/-- Process state in which client `203.0.113.5` already has three recent
timestamps in the global limiter bucket. -/
def demo_full_bucket_state : AppState :=
  { rate_limit_store := [("203.0.113.5", [1, 2, 3])], auth_rate_limit_store := [] }

open Middleware in
def demo_empty_state : AppState :=
  { rate_limit_store := [], auth_rate_limit_store := [] }

open Middleware in
/-- C3 counterexample: with the global rate limiter's bucket full, the 429
short-circuit from `rate_limit_middleware` is produced OUTSIDE the
security-headers middleware (Starlette wraps the last-registered
middleware outermost, and `rate_limit_middleware` is registered after
`security_headers_middleware` in `app/main.py`), so the response carries
no `X-Content-Type-Options` header — contradicting the claim that every
middleware short-circuit response carries the security headers. -/
theorem rate_limited_response_lacks_security_headers :
    (app_handle demo_app_config demo_verify_ok demo_ok_route 10 demo_get_request
        demo_full_bucket_state).1.status = 429 ∧
    get_header (app_handle demo_app_config demo_verify_ok demo_ok_route 10
        demo_get_request demo_full_bucket_state).1.headers "X-Content-Type-Options"
      = none := by
  constructor <;>
    (norm_num [app_handle, strict_auth_middleware, rate_limit_middleware,
      auth_rate_limit_middleware, request_size_limit_middleware,
      security_headers_middleware, rate_limit_step, store_get, store_set,
      rate_limit_exempt, starts_with, json_response_headers, get_header,
      demo_app_config, demo_verify_ok, demo_ok_route, demo_get_request,
      demo_full_bucket_state, List.dropWhile]) <;>
    simp

open Middleware in
/-- C3 (amended): responses that reach the security-headers middleware —
i.e. requests that pass the token gate, both rate limiters and the
payload-size limit, so that the inner stack (envelope, request id, route)
produces the response — carry all six unconditional security headers,
plus `Content-Security-Policy` when CSP is enabled and
`Strict-Transport-Security` when HSTS is enabled; but every short-circuit
of the layers outside the security-headers middleware — the global rate
limiter's 429, the auth rate limiter's 429, and the payload-size
limit's 413/400 — is the bare error envelope carrying none of those
headers. -/
theorem security_headers_amended (cfg : AppConfig)
    (verify : Request → Option AuthFailure) (inner : Request → Response)
    (now : ℚ) (req : Request) (st : AppState) :
    (auth_gate_passes verify req = true →
      global_limiter_allows cfg.rate_limit now req st.rate_limit_store = true →
      auth_limiter_allows cfg.auth_rate_limit now req st.auth_rate_limit_store = true →
      size_limit_passes cfg.max_request_body_bytes req = true →
      (∀ k v, (k, v) ∈ security_header_values →
        get_header (app_handle cfg verify inner now req st).1.headers k = some v) ∧
      (cfg.security.enable_csp = true →
        get_header (app_handle cfg verify inner now req st).1.headers
            "Content-Security-Policy"
          = some "default-src \x27none\x27; frame-ancestors \x27none\x27;") ∧
      (cfg.security.enable_hsts = true →
        get_header (app_handle cfg verify inner now req st).1.headers
            "Strict-Transport-Security"
          = some "max-age=31536000; includeSubDomains")) ∧
    (auth_gate_passes verify req = true →
      global_limiter_allows cfg.rate_limit now req st.rate_limit_store = false →
      (app_handle cfg verify inner now req st).1.status = 429 ∧
      (app_handle cfg verify inner now req st).1.body
          = Schemas.error_payload "Rate limit exceeded" Json.null req.x_request_id ∧
      (∀ k v, (k, v) ∈ security_header_values →
        get_header (app_handle cfg verify inner now req st).1.headers k = none) ∧
      get_header (app_handle cfg verify inner now req st).1.headers
          "Content-Security-Policy" = none ∧
      get_header (app_handle cfg verify inner now req st).1.headers
          "Strict-Transport-Security" = none) ∧
    (auth_gate_passes verify req = true →
      global_limiter_allows cfg.rate_limit now req st.rate_limit_store = true →
      auth_limiter_allows cfg.auth_rate_limit now req st.auth_rate_limit_store = false →
      (app_handle cfg verify inner now req st).1.status = 429 ∧
      (app_handle cfg verify inner now req st).1.body
          = Schemas.error_payload "Too many auth requests. Please wait and retry."
              Json.null req.x_request_id ∧
      get_header (app_handle cfg verify inner now req st).1.headers "Retry-After"
          = some (toString cfg.auth_rate_limit.window) ∧
      (∀ k v, (k, v) ∈ security_header_values →
        get_header (app_handle cfg verify inner now req st).1.headers k = none) ∧
      get_header (app_handle cfg verify inner now req st).1.headers
          "Content-Security-Policy" = none ∧
      get_header (app_handle cfg verify inner now req st).1.headers
          "Strict-Transport-Security" = none) ∧
    (auth_gate_passes verify req = true →
      global_limiter_allows cfg.rate_limit now req st.rate_limit_store = true →
      auth_limiter_allows cfg.auth_rate_limit now req st.auth_rate_limit_store = true →
      size_limit_passes cfg.max_request_body_bytes req = false →
      ((app_handle cfg verify inner now req st).1.status = 413 ∧
        (app_handle cfg verify inner now req st).1.body
          = Schemas.error_payload "Request payload too large" Json.null
              req.x_request_id
        ∨ (app_handle cfg verify inner now req st).1.status = 400 ∧
          (app_handle cfg verify inner now req st).1.body
            = Schemas.error_payload "Invalid Content-Length header" Json.null
                req.x_request_id) ∧
      (∀ k v, (k, v) ∈ security_header_values →
        get_header (app_handle cfg verify inner now req st).1.headers k = none) ∧
      get_header (app_handle cfg verify inner now req st).1.headers
          "Content-Security-Policy" = none ∧
      get_header (app_handle cfg verify inner now req st).1.headers
          "Strict-Transport-Security" = none) := by
  refine ⟨?_, ?_, ?_, ?_⟩
  · intro hgate hrl harl hsize
    unfold app_handle
    rw [strict_auth_middleware_pass _ _ _ _ hgate]
    obtain ⟨st1, e1, ha1⟩ := rate_limit_middleware_pass cfg.rate_limit now _ req st hrl
    rw [e1]
    have harl1 : auth_limiter_allows cfg.auth_rate_limit now req
        st1.auth_rate_limit_store = true := by rw [ha1]; exact harl
    obtain ⟨st2, e2⟩ :=
      auth_rate_limit_middleware_pass cfg.auth_rate_limit now _ req st1 harl1
    rw [e2]
    rw [request_size_limit_middleware_pass _ _ _ _ hsize]
    refine ⟨?_, ?_, ?_⟩
    · intro k v hm
      have hvals := security_headers_apply_values cfg.security req (inner req).headers
      simp only [security_header_values, List.mem_cons,
        Prod.mk.injEq, List.not_mem_nil, or_false] at hm
      rcases hm with ⟨rfl, rfl⟩ | ⟨rfl, rfl⟩ | ⟨rfl, rfl⟩ | ⟨rfl, rfl⟩
        | ⟨rfl, rfl⟩ | ⟨rfl, rfl⟩
      · exact hvals.1
      · exact hvals.2.1
      · exact hvals.2.2.1
      · exact hvals.2.2.2.1
      · exact hvals.2.2.2.2.1
      · exact hvals.2.2.2.2.2
    · intro hcsp
      exact security_headers_apply_csp cfg.security req (inner req).headers hcsp
    · intro hhsts
      exact security_headers_apply_hsts cfg.security req (inner req).headers hhsts
  · intro hgate hrl
    unfold app_handle
    rw [strict_auth_middleware_pass _ _ _ _ hgate]
    obtain ⟨st2, e2⟩ := rate_limit_middleware_deny cfg.rate_limit now _ req st hrl
    rw [e2]
    refine ⟨rfl, rfl, ?_, rfl, rfl⟩
    intro k v hm
    simp only [security_header_values, List.mem_cons,
      Prod.mk.injEq, List.not_mem_nil, or_false] at hm
    rcases hm with ⟨rfl, rfl⟩ | ⟨rfl, rfl⟩ | ⟨rfl, rfl⟩ | ⟨rfl, rfl⟩
      | ⟨rfl, rfl⟩ | ⟨rfl, rfl⟩ <;> rfl
  · intro hgate hrl harl
    unfold app_handle
    rw [strict_auth_middleware_pass _ _ _ _ hgate]
    obtain ⟨st1, e1, ha1⟩ := rate_limit_middleware_pass cfg.rate_limit now _ req st hrl
    rw [e1]
    have harl1 : auth_limiter_allows cfg.auth_rate_limit now req
        st1.auth_rate_limit_store = false := by rw [ha1]; exact harl
    obtain ⟨st2, e2⟩ :=
      auth_rate_limit_middleware_deny cfg.auth_rate_limit now _ req st1 harl1
    rw [e2]
    refine ⟨rfl, rfl, ?_, ?_, rfl, rfl⟩
    · exact get_header_set_header_self _ _ _
    · intro k v hm
      simp only [security_header_values, List.mem_cons,
        Prod.mk.injEq, List.not_mem_nil, or_false] at hm
      rcases hm with ⟨rfl, rfl⟩ | ⟨rfl, rfl⟩ | ⟨rfl, rfl⟩ | ⟨rfl, rfl⟩
        | ⟨rfl, rfl⟩ | ⟨rfl, rfl⟩ <;> rfl
  · intro hgate hrl harl hsize
    unfold app_handle
    rw [strict_auth_middleware_pass _ _ _ _ hgate]
    obtain ⟨st1, e1, ha1⟩ := rate_limit_middleware_pass cfg.rate_limit now _ req st hrl
    rw [e1]
    have harl1 : auth_limiter_allows cfg.auth_rate_limit now req
        st1.auth_rate_limit_store = true := by rw [ha1]; exact harl
    obtain ⟨st2, e2⟩ :=
      auth_rate_limit_middleware_pass cfg.auth_rate_limit now _ req st1 harl1
    rw [e2]
    rcases request_size_limit_middleware_deny cfg.max_request_body_bytes _ req st2
        hsize with e4 | e4
    · rw [e4]
      refine ⟨Or.inl ⟨rfl, rfl⟩, ?_, rfl, rfl⟩
      intro k v hm
      simp only [security_header_values, List.mem_cons,
        Prod.mk.injEq, List.not_mem_nil, or_false] at hm
      rcases hm with ⟨rfl, rfl⟩ | ⟨rfl, rfl⟩ | ⟨rfl, rfl⟩ | ⟨rfl, rfl⟩
        | ⟨rfl, rfl⟩ | ⟨rfl, rfl⟩ <;> rfl
    · rw [e4]
      refine ⟨Or.inr ⟨rfl, rfl⟩, ?_, rfl, rfl⟩
      intro k v hm
      simp only [security_header_values, List.mem_cons,
        Prod.mk.injEq, List.not_mem_nil, or_false] at hm
      rcases hm with ⟨rfl, rfl⟩ | ⟨rfl, rfl⟩ | ⟨rfl, rfl⟩ | ⟨rfl, rfl⟩
        | ⟨rfl, rfl⟩ | ⟨rfl, rfl⟩ <;> rfl

open Middleware in
/-- Witness for C3 (amended): a request that passes every outer layer gets
`X-Content-Type-Options: nosniff` and (CSP being enabled) the
`Content-Security-Policy` header; the concrete full-bucket 429 of the
counterexample scenario carries neither. -/
theorem security_headers_amended_witness :
    get_header (app_handle demo_app_config demo_verify_ok demo_ok_route 10
        demo_get_request demo_empty_state).1.headers "X-Content-Type-Options"
      = some "nosniff" ∧
    get_header (app_handle demo_app_config demo_verify_ok demo_ok_route 10
        demo_get_request demo_empty_state).1.headers "Content-Security-Policy"
      = some "default-src \x27none\x27; frame-ancestors \x27none\x27;" ∧
    get_header (app_handle demo_app_config demo_verify_ok demo_ok_route 10
        demo_get_request demo_full_bucket_state).1.headers "X-Content-Type-Options"
      = none := by
  refine ⟨?_, ?_, ?_⟩
  · exact ((security_headers_amended _ _ _ _ _ _).1 (by rfl) (by rfl) (by rfl)
      (by rfl)).1 "X-Content-Type-Options" "nosniff"
      (by simp [security_header_values])
  · exact ((security_headers_amended _ _ _ _ _ _).1 (by rfl) (by rfl) (by rfl)
      (by rfl)).2.1 (by rfl)
  · refine (((security_headers_amended _ _ _ _ _ _).2.1 (by rfl) ?_).2.2.1)
      "X-Content-Type-Options" "nosniff" (by simp [security_header_values])
    (norm_num [global_limiter_allows, rate_limit_step, store_get,
      rate_limit_exempt, starts_with, demo_app_config, demo_get_request,
      demo_full_bucket_state, List.dropWhile])
    decide

namespace Middleware

/-- The admission decisions produced by one client's bucket over a
sequence of request times (the bucket evolution of
`rate_limit_middleware` restricted to a single key). -/
def rate_limit_decisions (limit : ℕ) (window : ℤ) :
    List ℚ → List ℚ → List Bool
  | _, [] => []
  | bucket, t :: ts =>
      let r := rate_limit_step limit window t bucket
      r.1 :: rate_limit_decisions limit window r.2 ts

theorem dropWhile_eq_self_of_head {α : Type} (p : α → Bool) (l : List α)
    (h : ∀ x ∈ l, p x = false) : l.dropWhile p = l := by
  cases l with
  | nil => rfl
  | cons a t => simp [List.dropWhile_cons, h a (List.mem_cons_self a t)]

/-- When every bucket entry is still inside the window, the pruning loop
removes nothing. -/
theorem rate_limit_step_no_prune (limit : ℕ) (window : ℤ) (now : ℚ)
    (bucket : List ℚ) (h : ∀ x ∈ bucket, now - (window : ℚ) < x) :
    rate_limit_step limit window now bucket
      = if limit ≤ bucket.length then (false, bucket)
        else (true, bucket ++ [now]) := by
  have hp : bucket.dropWhile (fun t => decide (t ≤ now - (window : ℚ))) = bucket := by
    apply dropWhile_eq_self_of_head
    intro x hx
    simpa using not_le.mpr (h x hx)
  simp only [rate_limit_step, hp]

/-- Close-together requests: starting from a bucket whose entries are all
inside every request's window, the i-th request is admitted exactly when
`bucket.length + i < limit`. -/
theorem rate_limit_decisions_formula (limit : ℕ) (window : ℤ) :
    ∀ (times bucket : List ℚ),
      (∀ t ∈ times, ∀ u ∈ times, t - u < (window : ℚ)) →
      (∀ x ∈ bucket, ∀ t ∈ times, t - (window : ℚ) < x) →
      rate_limit_decisions limit window bucket times
        = (List.range times.length).map
            (fun i => decide (bucket.length + i < limit)) := by
  intro times
  induction times with
  | nil => intro bucket _ _; rfl
  | cons t ts ih =>
    intro bucket hw hb
    have hw' : ∀ a ∈ ts, ∀ u ∈ ts, a - u < (window : ℚ) := fun a ha u hu =>
      hw a (List.mem_cons_of_mem _ ha) u (List.mem_cons_of_mem _ hu)
    have hstep := rate_limit_step_no_prune limit window t bucket
      (fun x hx => hb x hx t (List.mem_cons_self t ts))
    by_cases hfull : limit ≤ bucket.length
    · have hb' : ∀ x ∈ bucket, ∀ a ∈ ts, a - (window : ℚ) < x := fun x hx a ha =>
        hb x hx a (List.mem_cons_of_mem _ ha)
      have hrec : rate_limit_decisions limit window bucket (t :: ts)
          = false :: rate_limit_decisions limit window bucket ts := by
        simp [rate_limit_decisions, hstep, hfull]
      rw [hrec, ih bucket hw' hb', List.length_cons, List.range_succ_eq_map,
        List.map_cons, List.map_map]
      congr 1
      · rw [eq_comm, decide_eq_false_iff_not]
        omega
      · apply List.map_congr_left
        intro i _
        simp only [Function.comp_apply]
        apply decide_eq_decide.mpr
        omega
    · have hb' : ∀ x ∈ bucket ++ [t], ∀ a ∈ ts, a - (window : ℚ) < x := by
        intro x hx a ha
        rcases List.mem_append.mp hx with hx1 | hx2
        · exact hb x hx1 a (List.mem_cons_of_mem _ ha)
        · have hxt : x = t := by simpa using hx2
          subst hxt
          have := hw a (List.mem_cons_of_mem _ ha) x (List.mem_cons_self _ _)
          linarith
      have hrec : rate_limit_decisions limit window bucket (t :: ts)
          = true :: rate_limit_decisions limit window (bucket ++ [t]) ts := by
        simp [rate_limit_decisions, hstep, hfull]
      rw [hrec, ih (bucket ++ [t]) hw' hb', List.length_cons, List.range_succ_eq_map,
        List.map_cons, List.map_map]
      congr 1
      · rw [eq_comm, decide_eq_true_eq]
        omega
      · apply List.map_congr_left
        intro i _
        simp only [Function.comp_apply, List.length_append, List.length_cons,
          List.length_nil]
        apply decide_eq_decide.mpr
        omega

end Middleware

open Middleware in
/-- The response of `demo_ok_route` after the security-headers layer. -/
def demo_secured_ok_response : Response :=
  { status := 200,
    headers := security_headers_apply demo_app_config.security demo_get_request
      json_response_headers,
    body := Json.null }

open Middleware in
/-- The global limiter's 429 short-circuit for `demo_get_request` (no
inbound correlation id). -/
def demo_429_response : Response :=
  { status := 429, headers := json_response_headers,
    body := Schemas.error_payload "Rate limit exceeded" Json.null none }

open Middleware in
def demo_state1 : AppState :=
  { rate_limit_store := [("203.0.113.5", [(0 : ℚ)])], auth_rate_limit_store := [] }

open Middleware in
def demo_state2 : AppState :=
  { rate_limit_store := [("203.0.113.5", [(0 : ℚ), 1])], auth_rate_limit_store := [] }

open Middleware in
def demo_state3 : AppState :=
  { rate_limit_store := [("203.0.113.5", [(0 : ℚ), 1, 2])],
    auth_rate_limit_store := [] }

open Middleware in
/-- C6: starting from an empty bucket, of any request sequence whose times
all lie within one window of each other, exactly the first `limit`
requests are admitted and all later ones are denied; concretely, with
`RATE_LIMIT_MAX=3` and `RATE_LIMIT_WINDOW_SECONDS=60`, four quick requests
from one client to the non-exempt path `/api/forex/rates` get statuses
200, 200, 200, 429 and the 429 body is the error envelope. -/
theorem sliding_window_rate_limit (limit : ℕ) (window : ℤ) (times : List ℚ)
    (hw : ∀ t ∈ times, ∀ u ∈ times, t - u < (window : ℚ)) :
    rate_limit_decisions limit window [] times
      = (List.range times.length).map (fun i => decide (i < limit)) ∧
    (app_run demo_app_config demo_verify_ok demo_ok_route demo_empty_state
        [(0, demo_get_request), (1, demo_get_request), (2, demo_get_request),
          (3, demo_get_request)]).map (fun r => r.status)
      = [200, 200, 200, 429] ∧
    ((app_run demo_app_config demo_verify_ok demo_ok_route demo_empty_state
        [(0, demo_get_request), (1, demo_get_request), (2, demo_get_request),
          (3, demo_get_request)]).getLast?).map (fun r => r.body)
      = some (Schemas.error_payload "Rate limit exceeded" Json.null none) := by
  have e1 : app_handle demo_app_config demo_verify_ok demo_ok_route 0
      demo_get_request demo_empty_state = (demo_secured_ok_response, demo_state1) := by
    (norm_num [app_handle, strict_auth_middleware, rate_limit_middleware,
      auth_rate_limit_middleware, request_size_limit_middleware,
      security_headers_middleware, rate_limit_step, store_get, store_set,
      rate_limit_exempt, auth_rate_limited_paths, starts_with,
      json_response_headers, demo_app_config, demo_verify_ok, demo_ok_route,
      demo_get_request, demo_empty_state, demo_secured_ok_response, demo_state1,
      List.dropWhile])
    simp
  have e2 : app_handle demo_app_config demo_verify_ok demo_ok_route 1
      demo_get_request demo_state1 = (demo_secured_ok_response, demo_state2) := by
    (norm_num [app_handle, strict_auth_middleware, rate_limit_middleware,
      auth_rate_limit_middleware, request_size_limit_middleware,
      security_headers_middleware, rate_limit_step, store_get, store_set,
      rate_limit_exempt, auth_rate_limited_paths, starts_with,
      json_response_headers, demo_app_config, demo_verify_ok, demo_ok_route,
      demo_get_request, demo_secured_ok_response, demo_state1, demo_state2,
      List.dropWhile])
    simp
  have e3 : app_handle demo_app_config demo_verify_ok demo_ok_route 2
      demo_get_request demo_state2 = (demo_secured_ok_response, demo_state3) := by
    (norm_num [app_handle, strict_auth_middleware, rate_limit_middleware,
      auth_rate_limit_middleware, request_size_limit_middleware,
      security_headers_middleware, rate_limit_step, store_get, store_set,
      rate_limit_exempt, auth_rate_limited_paths, starts_with,
      json_response_headers, demo_app_config, demo_verify_ok, demo_ok_route,
      demo_get_request, demo_secured_ok_response, demo_state2, demo_state3,
      List.dropWhile])
    simp
  have e4 : app_handle demo_app_config demo_verify_ok demo_ok_route 3
      demo_get_request demo_state3 = (demo_429_response, demo_state3) := by
    (norm_num [app_handle, strict_auth_middleware, rate_limit_middleware,
      auth_rate_limit_middleware, request_size_limit_middleware,
      security_headers_middleware, rate_limit_step, store_get, store_set,
      rate_limit_exempt, auth_rate_limited_paths, starts_with,
      json_response_headers, demo_app_config, demo_verify_ok, demo_ok_route,
      demo_get_request, demo_429_response, demo_state3,
      List.dropWhile])
    simp
  refine ⟨?_, ?_, ?_⟩
  · have h0 : ∀ x ∈ ([] : List ℚ), ∀ t ∈ times, t - (window : ℚ) < x := by
      intro x hx
      simp at hx
    simpa using rate_limit_decisions_formula limit window times [] hw h0
  · simp only [app_run, e1, e2, e3, e4]
    rfl
  · simp only [app_run, e1, e2, e3, e4]
    rfl

open Middleware in
/-- Witness for C6: four quick requests against limit 3 / window 60 give
admit, admit, admit, deny. -/
theorem sliding_window_rate_limit_witness :
    rate_limit_decisions 3 60 [] [0, 1, 2, 3]
      = (List.range 4).map (fun i => decide (i < 3)) ∧
    (List.range 4).map (fun i => decide (i < 3)) = [true, true, true, false] :=
  ⟨(sliding_window_rate_limit 3 60 [0, 1, 2, 3] (by norm_num)).1, by decide⟩

/-! ## Task queue service

Embedding of `app/services/task_queue_service.py` (`TaskQueueService`).
The awaited coroutine of a queued task is abstracted by its outcome
(`succeeds`); Redis push success is the `push_ok` parameter of `enqueue`.
`stop()`/sentinel draining is not modelled: the claims below quantify over
the started queue's normal operation.
-/

namespace TaskQueue

/-- A queued memory-mode task: the callable is represented by whether its
awaited execution raises. -/
structure QueuedTask where
  task_key : String
  succeeds : Bool
deriving DecidableEq, Repr

/-- The mutable fields of `TaskQueueService` that the claims are about.
`queue = some q` models the `asyncio.Queue` contents (memory mode);
`none` models `self._queue is None`. -/
structure QueueState where
  started : Bool
  backend_requested : String
  backend_active : String
  queue : Option (List QueuedTask)
  worker_count : ℕ
  max_size : ℕ
  enqueued : ℕ
  completed : ℕ
  failed : ℕ
  redis_queue_size_estimate : ℤ
deriving DecidableEq, Repr

/-- `TaskQueueService.__init__` (`task_queue_service.py:28`). -/
def initial_state : QueueState :=
  { started := false, backend_requested := "memory", backend_active := "memory",
    queue := none, worker_count := 0, max_size := 0,
    enqueued := 0, completed := 0, failed := 0, redis_queue_size_estimate := 0 }

/-- `start(workers, max_size)` (`task_queue_service.py:59`).
`backend_env` is the normalized `TASK_QUEUE_BACKEND` value,
`kv_connected` the result of `redis_store.ensure_connected()`, and
`kv_queue_len` the `get_queue_length` estimate read when the Redis backend
activates.  Returns the new state and the log lines printed. -/
def start (st : QueueState) (backend_env : String) (kv_connected : Bool)
    (kv_queue_len : ℕ) (workers : ℕ) (max_size : ℕ) : QueueState × List String :=
  if st.started then (st, [])
  else
    let requested := backend_env
    let fell_back := requested == "redis" && !kv_connected
    let active := if requested == "redis" && kv_connected then "redis" else "memory"
    let st2 : QueueState :=
      { st with
        started := true,
        backend_requested := requested,
        backend_active := active,
        queue := if active == "memory" then some [] else none,
        worker_count := max 1 workers,
        max_size := max 1 max_size,
        redis_queue_size_estimate :=
          if active == "redis" then (kv_queue_len : ℤ)
          else st.redis_queue_size_estimate }
    let logs :=
      (if fell_back then
        ["[TaskQueue] Redis backend unavailable; falling back to memory."]
       else [])
      ++ ["[TaskQueue] Started backend=" ++ active ++ " (requested=" ++ requested
            ++ ") workers=" ++ toString (max 1 workers) ++ ", max_size="
            ++ toString (max 1 max_size)]
    (st2, logs)

/-- One `enqueue(...)` call (`task_queue_service.py:116`).
`handler_name` is `_resolve_handler_name(coroutine)` (Redis mode),
`json_serializable` whether `json.dumps(args)`/`json.dumps(kwargs)`
succeed, and `task` the memory-mode payload. -/
structure EnqueueRequest where
  task_key : String
  task : QueuedTask
  handler_name : Option String
  json_serializable : Bool
deriving DecidableEq, Repr

def enqueue (st : QueueState) (req : EnqueueRequest) (push_ok : Bool) :
    Bool × QueueState :=
  if !st.started then (false, st)
  else if st.backend_active == "redis" then
    match req.handler_name with
    | none => (false, st)
    | some _ =>
        if !req.json_serializable then (false, st)
        else if !push_ok then (false, st)
        else (true, { st with
          enqueued := st.enqueued + 1,
          redis_queue_size_estimate := st.redis_queue_size_estimate + 1 })
  else
    match st.queue with
    | none => (false, st)
    | some q =>
        if st.max_size ≤ q.length then (false, st)
        else
          (true,
            { st with
              queue := some (q ++ [req.task]),
              enqueued := st.enqueued + 1 })

/-- One full iteration of `_memory_worker_loop` (`task_queue_service.py:201`):
pop the head task, await it, bump `completed` or `failed`.  An empty queue
means the worker is blocked in `get()` — no state change. -/
def memory_worker_step (st : QueueState) : QueueState :=
  match st.queue with
  | none => st
  | some [] => st
  | some (item :: rest) =>
      if item.succeeds then
        { st with queue := some rest, completed := st.completed + 1 }
      else
        { st with queue := some rest, failed := st.failed + 1 }

/-- `get_stats()` (`task_queue_service.py:175`), the fields the claims are
about. -/
structure QueueStats where
  started : Bool
  backend_requested : String
  backend : String
  workers : ℕ
  max_size : ℕ
  queue_size : ℕ
  enqueued : ℕ
  completed : ℕ
  failed : ℕ
deriving DecidableEq, Repr

def get_stats (st : QueueState) : QueueStats :=
  { started := st.started,
    backend_requested := st.backend_requested,
    backend := st.backend_active,
    workers := st.worker_count,
    max_size := st.max_size,
    queue_size :=
      match st.queue with
      | some q =>
          if st.backend_active == "memory" then q.length
          else st.redis_queue_size_estimate.toNat
      | none => st.redis_queue_size_estimate.toNat,
    enqueued := st.enqueued,
    completed := st.completed,
    failed := st.failed }

/-- A run-to-completion event on a started memory-mode queue: one
`enqueue` call or one full worker iteration.  The state between two such
events is exactly a quiescent point (no worker mid-task, no enqueue in
flight). -/
inductive MemoryEvent where
  | enq (req : EnqueueRequest)
  | work
deriving DecidableEq, Repr

def apply_event (st : QueueState) : MemoryEvent → QueueState
  | .enq req => (enqueue st req true).2
  | .work => memory_worker_step st

def apply_events (st : QueueState) (evs : List MemoryEvent) : QueueState :=
  evs.foldl apply_event st

/-- The memory-mode balance invariant
`enqueued = completed + failed + queue_size`. -/
def counters_balanced (st : QueueState) : Prop :=
  match st.queue with
  | some q => st.enqueued = st.completed + st.failed + q.length
  | none => False

theorem counters_balanced_apply_event (st : QueueState)
    (hmem : st.backend_active = "memory") (ev : MemoryEvent)
    (h : counters_balanced st) :
    counters_balanced (apply_event st ev)
      ∧ (apply_event st ev).backend_active = "memory" := by
  cases ev with
  | enq req =>
    cases hq : st.queue with
    | none => simp [counters_balanced, hq] at h
    | some q =>
      have h' : st.enqueued = st.completed + st.failed + q.length := by
        simpa [counters_balanced, hq] using h
      by_cases hst : st.started = true
      · by_cases hfull : st.max_size ≤ q.length
        · have hres : apply_event st (MemoryEvent.enq req) = st := by
            simp [apply_event, enqueue, hst, hmem, hq, hfull]
          rw [hres]
          exact ⟨h, hmem⟩
        · have hres : apply_event st (MemoryEvent.enq req)
              = { st with
                  queue := some (q ++ [req.task]),
                  enqueued := st.enqueued + 1 } := by
            simp [apply_event, enqueue, hst, hmem, hq, hfull]
          rw [hres]
          refine ⟨?_, hmem⟩
          simp only [counters_balanced, List.length_append, List.length_cons,
            List.length_nil]
          omega
      · have hst' : st.started = false := by simpa using hst
        have hres : apply_event st (MemoryEvent.enq req) = st := by
          simp [apply_event, enqueue, hst']
        rw [hres]
        exact ⟨h, hmem⟩
  | work =>
    cases hq : st.queue with
    | none => simp [counters_balanced, hq] at h
    | some q =>
      cases q with
      | nil => simpa [apply_event, memory_worker_step, hq, counters_balanced, hmem] using h
      | cons item rest =>
        have h' : st.enqueued = st.completed + st.failed + (rest.length + 1) := by
          simpa [counters_balanced, hq] using h
        by_cases hs : item.succeeds = true
        · have hres : apply_event st MemoryEvent.work
              = { st with queue := some rest, completed := st.completed + 1 } := by
            simp [apply_event, memory_worker_step, hq, hs]
          rw [hres]
          refine ⟨?_, hmem⟩
          simp only [counters_balanced]
          omega
        · have hs' : item.succeeds = false := by simpa using hs
          have hres : apply_event st MemoryEvent.work
              = { st with queue := some rest, failed := st.failed + 1 } := by
            simp [apply_event, memory_worker_step, hq, hs']
          rw [hres]
          refine ⟨?_, hmem⟩
          simp only [counters_balanced]
          omega

theorem counters_balanced_apply_events (st : QueueState)
    (hmem : st.backend_active = "memory") (evs : List MemoryEvent)
    (h : counters_balanced st) :
    counters_balanced (apply_events st evs)
      ∧ (apply_events st evs).backend_active = "memory" := by
  induction evs generalizing st with
  | nil => exact ⟨h, hmem⟩
  | cons ev rest ih =>
    have hstep := counters_balanced_apply_event st hmem ev h
    simpa [apply_events, List.foldl_cons] using ih (apply_event st ev) hstep.2 hstep.1

end TaskQueue

open TaskQueue in
/-- C7: starting the queue with the shared backend requested but the
key-value store unreachable activates the memory backend (stats report
`backend = "memory"` and the fallback message is logged); a subsequently
enqueued callable is accepted, and after the worker runs it to completion
the `completed` counter is 1 and the queue is empty again. -/
theorem shared_backend_failover (workers max_size : ℕ) (req : EnqueueRequest)
    (hok : req.task.succeeds = true) :
    (get_stats (start initial_state "redis" false 0 workers max_size).1).backend
        = "memory" ∧
    "[TaskQueue] Redis backend unavailable; falling back to memory."
        ∈ (start initial_state "redis" false 0 workers max_size).2 ∧
    (enqueue (start initial_state "redis" false 0 workers max_size).1 req true).1
        = true ∧
    (get_stats (memory_worker_step
        (enqueue (start initial_state "redis" false 0 workers max_size).1
          req true).2)).completed = 1 ∧
    (get_stats (memory_worker_step
        (enqueue (start initial_state "redis" false 0 workers max_size).1
          req true).2)).queue_size = 0 := by
  have hstart : (start initial_state "redis" false 0 workers max_size).1
      = { initial_state with started := true, backend_requested := "redis", backend_active := "memory", queue := some [], worker_count := max 1 workers, max_size := max 1 max_size } := by
    simp [start, initial_state]
  have hfull : ¬ (max 1 max_size ≤ (0 : ℕ)) := by omega
  refine ⟨by rw [hstart]; rfl, by simp [start, initial_state], ?_, ?_, ?_⟩
  · rw [hstart]
    simp [enqueue, hfull, initial_state]
  · rw [hstart]
    simp [enqueue, hfull, memory_worker_step, hok, get_stats, initial_state]
  · rw [hstart]
    simp [enqueue, hfull, memory_worker_step, hok, get_stats, initial_state]

open TaskQueue in
/-- Witness for C7: the failover scenario with a concrete succeeding
task. -/
theorem shared_backend_failover_witness :
    (get_stats (start initial_state "redis" false 0 2 200).1).backend = "memory" ∧
    (enqueue (start initial_state "redis" false 0 2 200).1
        ⟨"task:demo", ⟨"task:demo", true⟩, none, true⟩ true).1 = true ∧
    (get_stats (memory_worker_step
        (enqueue (start initial_state "redis" false 0 2 200).1
          ⟨"task:demo", ⟨"task:demo", true⟩, none, true⟩ true).2)).completed = 1 := by
  have h := shared_backend_failover 2 200
    ⟨"task:demo", ⟨"task:demo", true⟩, none, true⟩ (by rfl)
  exact ⟨h.1, h.2.2.1, h.2.2.2.1⟩

open TaskQueue in
/-- C9: in memory mode, at every quiescent point (the state between two
run-to-completion events of the started queue), the stats satisfy
`enqueued = completed + failed + queue_size`. -/
theorem memory_queue_counters_balanced (workers max_size : ℕ)
    (evs : List MemoryEvent) :
    (get_stats (apply_events (start initial_state "memory" false 0 workers
        max_size).1 evs)).enqueued
      = (get_stats (apply_events (start initial_state "memory" false 0 workers
          max_size).1 evs)).completed
        + (get_stats (apply_events (start initial_state "memory" false 0 workers
            max_size).1 evs)).failed
        + (get_stats (apply_events (start initial_state "memory" false 0 workers
            max_size).1 evs)).queue_size := by
  have hstart : (start initial_state "memory" false 0 workers max_size).1
      = { initial_state with started := true, backend_active := "memory", queue := some [], worker_count := max 1 workers, max_size := max 1 max_size } := by
    simp [start, initial_state]
  have hinv := counters_balanced_apply_events
    ((start initial_state "memory" false 0 workers max_size).1)
    (by rw [hstart]) evs
    (by rw [hstart]; simp [counters_balanced, initial_state])
  set final := apply_events (start initial_state "memory" false 0 workers max_size).1
    evs with hfinal
  obtain ⟨hbal, hmem⟩ := hinv
  cases hq : final.queue with
  | none => simp [counters_balanced, hq] at hbal
  | some q =>
    have : final.enqueued = final.completed + final.failed + q.length := by
      simpa [counters_balanced, hq] using hbal
    simp [get_stats, hq, hmem, this]

open TaskQueue in
/-- C10: whenever `enqueue` returns `False` — queue not started, memory
queue full, Redis mode with an unregistered handler, non-JSON-serializable
arguments, or a failed push — the rejection is atomic: the entire state
(counters, memory FIFO, shared-size estimate) is unchanged. -/
theorem enqueue_rejection_atomic (st : QueueState) (req : EnqueueRequest)
    (push_ok : Bool) (h : (enqueue st req push_ok).1 = false) :
    (enqueue st req push_ok).2 = st := by
  by_cases hst : st.started = true
  · by_cases hb : (st.backend_active == "redis") = true
    · cases hh : req.handler_name with
      | none => simp [enqueue, hst, hb, hh]
      | some name =>
        by_cases hj : req.json_serializable = true
        · by_cases hp : push_ok = true
          · exfalso
            simp [enqueue, hst, hb, hh, hj, hp] at h
          · have hp' : push_ok = false := by simpa using hp
            simp [enqueue, hst, hb, hh, hj, hp']
        · have hj' : req.json_serializable = false := by simpa using hj
          simp [enqueue, hst, hb, hh, hj']
    · have hb' : (st.backend_active == "redis") = false := by simpa using hb
      cases hq : st.queue with
      | none => simp [enqueue, hst, hb', hq]
      | some q =>
        by_cases hfull : st.max_size ≤ q.length
        · simp [enqueue, hst, hb', hq, hfull]
        · exfalso
          simp [enqueue, hst, hb', hq, hfull] at h
  · have hst' : st.started = false := by simpa using hst
    simp [enqueue, hst']

open TaskQueue in
/-- Witness for C10: enqueueing on the never-started initial state is
rejected and leaves the state untouched. -/
theorem enqueue_rejection_atomic_witness :
    (enqueue initial_state ⟨"task:w", ⟨"task:w", true⟩, none, true⟩ true).1
        = false ∧
    (enqueue initial_state ⟨"task:w", ⟨"task:w", true⟩, none, true⟩ true).2
        = initial_state := by
  refine ⟨rfl, ?_⟩
  exact enqueue_rejection_atomic initial_state
    ⟨"task:w", ⟨"task:w", true⟩, none, true⟩ true rfl

/-! ## Ops snapshot and alerts

Embedding of `app/ops_routes.py`.  `ForexDataService.get_runtime_stats` is
called at `ops_routes.py:98` but its definition is not among the provided
source files (the spec notes two divergent forex-service implementations
sharing symbol names); it is modelled from the spec below.
-/

namespace Ops

/-- One `connection_registry` entry as `_count_stale_connections` reads it:
`last_seen` is the `_parse_iso` result (`none` = missing/unparseable). -/
structure RegistryEntry where
  connection_id : String
  task_id : String
  last_seen : Option ℚ
deriving DecidableEq, Repr

/-- `_count_stale_connections` (`ops_routes.py:64`): entries whose parsed
`last_seen` age is at least `stale_after_seconds`. -/
def count_stale_connections (registry : List RegistryEntry)
    (stale_after_seconds : ℚ) (now : ℚ) : ℕ :=
  (registry.filter (fun item =>
    match item.last_seen with
    | none => false
    | some ts => decide (stale_after_seconds ≤ now - ts))).length

/-- The forex-service fields the runtime stats report
(`_rate_failure_streak`, `_next_rates_retry_monotonic` in
`forex_data_service.py:38`). -/
structure ForexServiceState where
  rate_failure_streak : ℕ
  next_rates_retry_monotonic : ℚ
deriving DecidableEq, Repr

structure ForexRuntimeStats where
  rate_failure_streak : ℕ
  next_rates_retry_in_seconds : ℚ
deriving DecidableEq, Repr

/-- Modelled from the spec: `ForexDataService.get_runtime_stats` is
referenced from `app/ops_routes.py:98` but missing from the provided
sources.  Per the spec, the snapshot's forex component is the service's
runtime stats — the rate failure streak and the current retry backoff
(read as `rate_failure_streak` / `next_rates_retry_in_seconds` by
`_build_alerts`). -/
def get_runtime_stats (fs : ForexServiceState) (now : ℚ) : ForexRuntimeStats :=
  { rate_failure_streak := fs.rate_failure_streak,
    next_rates_retry_in_seconds := max 0 (fs.next_rates_retry_monotonic - now) }

structure WebsocketInfo where
  total_connections : ℕ
  registry_size : ℕ
  stale_after_seconds : ℚ
  stale_connections : ℕ
deriving DecidableEq, Repr

structure OpsSnapshot where
  queue : TaskQueue.QueueStats
  websocket : WebsocketInfo
  forex : ForexRuntimeStats
deriving DecidableEq, Repr

/-- `_collect_ops_snapshot` (`ops_routes.py:80`): queue stats, the
registry snapshot (with its stale count), and the forex runtime stats. -/
def collect_ops_snapshot (qs : TaskQueue.QueueState)
    (registry : List RegistryEntry) (total_connections : ℕ)
    (stale_after_seconds : ℚ) (fs : ForexServiceState) (now : ℚ) : OpsSnapshot :=
  { queue := TaskQueue.get_stats qs,
    websocket :=
      { total_connections := total_connections,
        registry_size := registry.length,
        stale_after_seconds := stale_after_seconds,
        stale_connections :=
          count_stale_connections registry stale_after_seconds now },
    forex := get_runtime_stats fs now }

end Ops

open Ops in
/-- C2: the ops snapshot (served by `/api/ops/status`, `/api/ops/alerts`
and `/api/ops/metrics`) is a total composition — it always contains the
queue stats, the registry snapshot with its stale count, and a forex
component that is exactly the forex service's runtime stats (failure
streak and retry backoff). -/
theorem ops_snapshot_composes (qs : TaskQueue.QueueState)
    (registry : List RegistryEntry) (total_connections : ℕ)
    (stale_after_seconds : ℚ) (fs : ForexServiceState) (now : ℚ) :
    (collect_ops_snapshot qs registry total_connections stale_after_seconds
        fs now).queue = TaskQueue.get_stats qs ∧
    (collect_ops_snapshot qs registry total_connections stale_after_seconds
        fs now).websocket.registry_size = registry.length ∧
    (collect_ops_snapshot qs registry total_connections stale_after_seconds
        fs now).websocket.stale_connections
      = count_stale_connections registry stale_after_seconds now ∧
    (collect_ops_snapshot qs registry total_connections stale_after_seconds
        fs now).forex = get_runtime_stats fs now :=
  ⟨rfl, rfl, rfl, rfl⟩

namespace Ops

/-- Alert thresholds read by `_build_alerts` via `_env_int` (each with its
default): `OPS_ALERT_QUEUE_DEPTH_WARN=80`, `OPS_ALERT_QUEUE_DEPTH_CRIT=150`,
`OPS_ALERT_QUEUE_FAILED_WARN=1`, `OPS_ALERT_WS_STALE_COUNT_WARN=1`,
`OPS_ALERT_FOREX_FAILURE_STREAK_WARN=3`,
`OPS_ALERT_FOREX_RETRY_WARN_SECONDS=20`. -/
structure OpsAlertConfig where
  queue_depth_warn : ℕ
  queue_depth_crit : ℕ
  queue_failed_warn : ℕ
  ws_stale_count_warn : ℕ
  forex_failure_streak_warn : ℕ
  forex_retry_warn_seconds : ℕ
deriving DecidableEq, Repr

/-- The default thresholds (`ops_routes.py:109`). -/
def default_ops_alert_config : OpsAlertConfig :=
  { queue_depth_warn := 80,
    queue_depth_crit := 150,
    queue_failed_warn := 1,
    ws_stale_count_warn := 1,
    forex_failure_streak_warn := 3,
    forex_retry_warn_seconds := 20 }

/-- One alert dict built by `_build_alerts`. -/
structure Alert where
  id : String
  severity : String
  message : String
  value : ℚ
  threshold : ℚ
deriving DecidableEq, Repr

/-- Python `round(x, 3)`; Python uses banker=s rounding at exact
half-thousandths while `round` here rounds those up, which is irrelevant
to every claim (the rounded value is only carried as payload). -/
def round3 (q : ℚ) : ℚ := (round (q * 1000) : ℚ) / 1000

/-- `_build_alerts` (`ops_routes.py:102`): queue depth is an
`if critical / elif warning` pair; the other four checks are independent
`if`s; `>=` comparisons throughout. -/
def build_alerts (cfg : OpsAlertConfig) (s : OpsSnapshot) : List Alert :=
  (if cfg.queue_depth_crit ≤ s.queue.queue_size then
      [{ id := "queue_depth_critical", severity := "critical",
         message := "Task queue depth is critical",
         value := (s.queue.queue_size : ℚ),
         threshold := (cfg.queue_depth_crit : ℚ) }]
    else if cfg.queue_depth_warn ≤ s.queue.queue_size then
      [{ id := "queue_depth_warning", severity := "warning",
         message := "Task queue depth is high",
         value := (s.queue.queue_size : ℚ),
         threshold := (cfg.queue_depth_warn : ℚ) }]
    else [])
  ++ (if cfg.queue_failed_warn ≤ s.queue.failed then
      [{ id := "queue_failed_tasks", severity := "warning",
         message := "Queue has failed tasks",
         value := (s.queue.failed : ℚ),
         threshold := (cfg.queue_failed_warn : ℚ) }]
    else [])
  ++ (if cfg.ws_stale_count_warn ≤ s.websocket.stale_connections then
      [{ id := "websocket_stale_connections", severity := "warning",
         message := "Stale websocket connections detected",
         value := (s.websocket.stale_connections : ℚ),
         threshold := (cfg.ws_stale_count_warn : ℚ) }]
    else [])
  ++ (if cfg.forex_failure_streak_warn ≤ s.forex.rate_failure_streak then
      [{ id := "forex_rate_failure_streak", severity := "warning",
         message := "Forex rate source failure streak elevated",
         value := (s.forex.rate_failure_streak : ℚ),
         threshold := (cfg.forex_failure_streak_warn : ℚ) }]
    else [])
  ++ (if (cfg.forex_retry_warn_seconds : ℚ) ≤ s.forex.next_rates_retry_in_seconds then
      [{ id := "forex_retry_backoff_high", severity := "warning",
         message := "Forex retry backoff is high",
         value := round3 s.forex.next_rates_retry_in_seconds,
         threshold := (cfg.forex_retry_warn_seconds : ℚ) }]
    else [])

/-- The ids of the built alerts. -/
def alert_ids (cfg : OpsAlertConfig) (s : OpsSnapshot) : List String :=
  (build_alerts cfg s).map (fun a => a.id)

set_option maxRecDepth 4000 in
lemma alert_ids_eq (cfg : OpsAlertConfig) (s : OpsSnapshot) :
    alert_ids cfg s
      = (if cfg.queue_depth_crit ≤ s.queue.queue_size then
            ["queue_depth_critical"]
          else if cfg.queue_depth_warn ≤ s.queue.queue_size then
            ["queue_depth_warning"]
          else [])
        ++ (if cfg.queue_failed_warn ≤ s.queue.failed then
            ["queue_failed_tasks"] else [])
        ++ (if cfg.ws_stale_count_warn ≤ s.websocket.stale_connections then
            ["websocket_stale_connections"] else [])
        ++ (if cfg.forex_failure_streak_warn ≤ s.forex.rate_failure_streak then
            ["forex_rate_failure_streak"] else [])
        ++ (if (cfg.forex_retry_warn_seconds : ℚ)
              ≤ s.forex.next_rates_retry_in_seconds then
            ["forex_retry_backoff_high"] else []) := by
  unfold alert_ids build_alerts
  split_ifs <;> rfl

lemma alert_ids_nodup (cfg : OpsAlertConfig) (s : OpsSnapshot) :
    (alert_ids cfg s).Nodup := by
  rw [alert_ids_eq]
  split_ifs <;> decide

lemma mem_alert_ids_queue_crit (cfg : OpsAlertConfig) (s : OpsSnapshot) :
    "queue_depth_critical" ∈ alert_ids cfg s
      ↔ cfg.queue_depth_crit ≤ s.queue.queue_size := by
  rw [alert_ids_eq]
  split_ifs <;> simp_all

lemma mem_alert_ids_queue_warn (cfg : OpsAlertConfig) (s : OpsSnapshot) :
    "queue_depth_warning" ∈ alert_ids cfg s
      ↔ (cfg.queue_depth_warn ≤ s.queue.queue_size
          ∧ s.queue.queue_size < cfg.queue_depth_crit) := by
  rw [alert_ids_eq]
  split_ifs <;> simp_all

lemma mem_alert_ids_queue_failed (cfg : OpsAlertConfig) (s : OpsSnapshot) :
    "queue_failed_tasks" ∈ alert_ids cfg s
      ↔ cfg.queue_failed_warn ≤ s.queue.failed := by
  rw [alert_ids_eq]
  split_ifs <;> simp_all

lemma mem_alert_ids_ws_stale (cfg : OpsAlertConfig) (s : OpsSnapshot) :
    "websocket_stale_connections" ∈ alert_ids cfg s
      ↔ cfg.ws_stale_count_warn ≤ s.websocket.stale_connections := by
  rw [alert_ids_eq]
  split_ifs <;> simp_all

lemma mem_alert_ids_forex_streak (cfg : OpsAlertConfig) (s : OpsSnapshot) :
    "forex_rate_failure_streak" ∈ alert_ids cfg s
      ↔ cfg.forex_failure_streak_warn ≤ s.forex.rate_failure_streak := by
  rw [alert_ids_eq]
  split_ifs <;> simp_all

lemma mem_alert_ids_forex_retry (cfg : OpsAlertConfig) (s : OpsSnapshot) :
    "forex_retry_backoff_high" ∈ alert_ids cfg s
      ↔ (cfg.forex_retry_warn_seconds : ℚ)
          ≤ s.forex.next_rates_retry_in_seconds := by
  rw [alert_ids_eq]
  split_ifs <;> simp_all

/-- The process-local `_alert_latch` dict, as an ordered association list
(Python dicts preserve insertion order). -/
def Latch : Type := List (String × Alert)

def latch_keys (l : List (String × Alert)) : List String :=
  l.map (fun e => e.1)

/-- Python `latch[k] = v`: overwrite in place if the key exists, else
append. -/
def latch_set (l : List (String × Alert)) (k : String) (v : Alert) :
    List (String × Alert) :=
  if l.any (fun e => e.1 == k) then
    l.map (fun e => if e.1 == k then (k, v) else e)
  else l ++ [(k, v)]

/-- One `_send_alert_webhook(event_type, alert)` call site being reached
in `_emit_alert_hooks` (the dispatch itself is further gated inside
`_send_alert_webhook` by `OPS_ALERT_WEBHOOK_URL` and the minimum
severity, which every built alert meets under the defaults). -/
inductive HookEvent where
  | triggered (id : String)
  | resolved (id : String)
deriving DecidableEq, Repr

/-- First loop of `_emit_alert_hooks` (`ops_routes.py:275`): for each
built alert in order, call the webhook with `triggered` if its id is not
latched yet, then store it in the latch. -/
def emit_phase1 (latch : List (String × Alert)) :
    List Alert → List (String × Alert) × List HookEvent
  | [] => (latch, [])
  | alert :: rest =>
    let fired : Bool := ! latch.any (fun e => e.1 == alert.id)
    let r := emit_phase1 (latch_set latch alert.id alert) rest
    (r.1, (if fired then [HookEvent.triggered alert.id] else []) ++ r.2)

/-- `_emit_alert_hooks` (`ops_routes.py:268`): gated by
`OPS_ALERT_HOOKS_ENABLED` (default on); the triggered loop, then one
`resolved` webhook per latched id no longer active, popping each. -/
def emit_alert_hooks (hooks_enabled : Bool)
    (latch : List (String × Alert)) (alerts : List Alert) :
    List (String × Alert) × List HookEvent :=
  if hooks_enabled then
    let active_ids := alerts.map (fun a => a.id)
    let p1 := emit_phase1 latch alerts
    let resolved_ids := (latch_keys p1.1).filter
      (fun k => ! active_ids.contains k)
    (p1.1.filter (fun e => active_ids.contains e.1),
      p1.2 ++ resolved_ids.map (fun k => HookEvent.resolved k))
  else (latch, [])

lemma any_key_eq (l : List (String × Alert)) (k : String) :
    (l.any (fun e => e.1 == k)) = true ↔ k ∈ latch_keys l := by
  simp [latch_keys, List.any_eq_true, List.mem_map]

lemma mem_latch_keys_latch_set (l : List (String × Alert)) (k k0 : String)
    (v : Alert) :
    k0 ∈ latch_keys (latch_set l k v) ↔ k0 ∈ latch_keys l ∨ k0 = k := by
  unfold latch_set
  by_cases ha : (l.any (fun e => e.1 == k)) = true
  · rw [if_pos ha]
    have hk : k ∈ latch_keys l := (any_key_eq l k).mp ha
    have hkeys : latch_keys (l.map (fun e => if e.1 == k then (k, v) else e))
        = latch_keys l := by
      simp only [latch_keys, List.map_map]
      apply List.map_congr_left
      intro e _
      by_cases hek : (e.1 == k) = true
      · have : e.1 = k := by simpa using hek
        simp [hek, this]
      · have hne : ¬ e.1 = k := by simpa using hek
        simp [hek, hne]
    rw [hkeys]
    constructor
    · exact Or.inl
    · rintro (h | rfl)
      · exact h
      · exact hk
  · rw [if_neg ha]
    simp [latch_keys]

lemma nodup_latch_keys_latch_set (l : List (String × Alert)) (k : String)
    (v : Alert) (h : (latch_keys l).Nodup) :
    (latch_keys (latch_set l k v)).Nodup := by
  unfold latch_set
  by_cases ha : (l.any (fun e => e.1 == k)) = true
  · rw [if_pos ha]
    have hkeys : latch_keys (l.map (fun e => if e.1 == k then (k, v) else e))
        = latch_keys l := by
      simp only [latch_keys, List.map_map]
      apply List.map_congr_left
      intro e _
      by_cases hek : (e.1 == k) = true
      · have : e.1 = k := by simpa using hek
        simp [hek, this]
      · have hne : ¬ e.1 = k := by simpa using hek
        simp [hek, hne]
    rw [hkeys]
    exact h
  · rw [if_neg ha]
    have hk : k ∉ latch_keys l := fun hmem => ha ((any_key_eq l k).mpr hmem)
    simp only [latch_keys, List.map_append, List.map_cons, List.map_nil]
    refine List.Nodup.append h (List.nodup_singleton k) ?_
    intro a haK haS
    rcases List.mem_singleton.mp haS with rfl
    exact hk haK

lemma emit_phase1_keys_mem (as : List Alert) :
    ∀ (l : List (String × Alert)) (k0 : String),
      k0 ∈ latch_keys (emit_phase1 l as).1
        ↔ k0 ∈ latch_keys l ∨ k0 ∈ as.map (fun a => a.id) := by
  induction as with
  | nil => intro l k0; simp [emit_phase1]
  | cons a rest ih =>
    intro l k0
    simp only [emit_phase1]
    rw [ih (latch_set l a.id a) k0, mem_latch_keys_latch_set]
    simp only [List.map_cons, List.mem_cons]
    tauto

lemma emit_phase1_keys_nodup (as : List Alert) :
    ∀ (l : List (String × Alert)), (latch_keys l).Nodup →
      (latch_keys (emit_phase1 l as).1).Nodup := by
  induction as with
  | nil => intro l h; simpa [emit_phase1] using h
  | cons a rest ih =>
    intro l h
    simp only [emit_phase1]
    exact ih _ (nodup_latch_keys_latch_set l a.id a h)

lemma emit_phase1_no_resolved (as : List Alert) :
    ∀ (l : List (String × Alert)) (i : String),
      HookEvent.resolved i ∉ (emit_phase1 l as).2 := by
  induction as with
  | nil => intro l i; simp [emit_phase1]
  | cons a rest ih =>
    intro l i
    simp only [emit_phase1, List.mem_append]
    rintro (h | h)
    · rcases Bool.eq_false_or_eq_true (! l.any (fun e => e.1 == a.id))
        with hf | hf
      · simp [hf] at h
      · simp [hf] at h
    · exact ih _ i h

lemma emit_phase1_triggered_count (as : List Alert) :
    ∀ (l : List (String × Alert)) (i : String),
      (as.map (fun a => a.id)).Nodup →
      (emit_phase1 l as).2.count (HookEvent.triggered i)
        = if i ∈ as.map (fun a => a.id) ∧ i ∉ latch_keys l then 1 else 0 := by
  induction as with
  | nil => intro l i _; simp [emit_phase1]
  | cons a rest ih =>
    intro l i hnd
    have hrest : (rest.map (fun a => a.id)).Nodup :=
      (List.nodup_cons.mp (by simpa using hnd)).2
    have hna : a.id ∉ rest.map (fun a => a.id) :=
      (List.nodup_cons.mp (by simpa using hnd)).1
    simp only [emit_phase1, List.count_append]
    rw [ih (latch_set l a.id a) i hrest]
    have hmemset : i ∈ latch_keys (latch_set l a.id a)
        ↔ (i ∈ latch_keys l ∨ i = a.id) :=
      mem_latch_keys_latch_set l a.id i a
    by_cases hia : i = a.id
    · have hrec : (if i ∈ rest.map (fun a => a.id)
          ∧ i ∉ latch_keys (latch_set l a.id a) then 1 else 0) = 0 := by
        rw [if_neg]
        rintro ⟨hm, -⟩
        exact hna (hia ▸ hm)
      rw [hrec]
      by_cases hil : i ∈ latch_keys l
      · have hany : (l.any (fun e => e.1 == a.id)) = true :=
          (any_key_eq l a.id).mpr (hia ▸ hil)
        rw [hany]
        simp [hil]
      · have hany : (l.any (fun e => e.1 == a.id)) = false := by
          cases hb : (l.any (fun e => e.1 == a.id)) with
          | false => rfl
          | true => exact absurd (hia.symm ▸ (any_key_eq l a.id).mp hb) hil
        rw [hany]
        have hidl : a.id ∉ latch_keys l := fun hm => hil (hia.symm ▸ hm)
        simp [hil, hia, hidl, List.count_cons, List.count_nil]
    · have hblock : List.count (HookEvent.triggered i)
          (if (! l.any (fun e => e.1 == a.id)) = true
            then [HookEvent.triggered a.id] else []) = 0 := by
        split_ifs <;> simp [hia, List.count_cons, List.count_nil]
      rw [hblock]
      have hcond : (i ∈ rest.map (fun a => a.id)
            ∧ i ∉ latch_keys (latch_set l a.id a))
          ↔ (i ∈ (a :: rest).map (fun a => a.id) ∧ i ∉ latch_keys l) := by
        rw [hmemset]
        simp only [List.map_cons, List.mem_cons, not_or]
        constructor
        · rintro ⟨hm, hkl, -⟩
          exact ⟨Or.inr hm, hkl⟩
        · rintro ⟨hm, hkl⟩
          rcases hm with hm | hm
          · exact absurd hm hia
          · exact ⟨hm, hkl, hia⟩
      simp only [hcond]
      simp

lemma count_map_resolved (ids : List String) (i : String) :
    (ids.map (fun k => HookEvent.resolved k)).count (HookEvent.resolved i)
      = ids.count i := by
  induction ids with
  | nil => simp
  | cons k t ih => simp [List.count_cons, ih]

lemma count_map_resolved_triggered (ids : List String) (i : String) :
    (ids.map (fun k => HookEvent.resolved k)).count (HookEvent.triggered i)
      = 0 := by
  induction ids with
  | nil => simp
  | cons k t ih => simp [List.count_cons, ih]

end Ops

namespace Ops

/-- A snapshot whose queue depth (200) violates both the default warning
threshold (80) and the default critical threshold (150), with every other
metric healthy. -/
def demo_snapshot_200 : OpsSnapshot :=
  { queue :=
      { started := true,
        backend_requested := "memory",
        backend := "memory",
        workers := 2,
        max_size := 500,
        queue_size := 200,
        enqueued := 200,
        completed := 0,
        failed := 0 },
    websocket :=
      { total_connections := 0,
        registry_size := 0,
        stale_after_seconds := 120,
        stale_connections := 0 },
    forex :=
      { rate_failure_streak := 0,
        next_rates_retry_in_seconds := 0 } }

end Ops

open Ops in
/-- C8 counterexample: with the default thresholds and queue depth 200,
the warning threshold (80) is violated at the evaluation, yet after the
evaluation the latch holds only `queue_depth_critical` — the `elif` in
`_build_alerts` suppresses `queue_depth_warning` whenever the critical
branch fires, so "id present in the latch iff its threshold was violated"
fails for `queue_depth_warning`. -/
theorem alert_latch_counterexample :
    default_ops_alert_config.queue_depth_warn
      ≤ demo_snapshot_200.queue.queue_size ∧
    latch_keys (emit_alert_hooks true []
        (build_alerts default_ops_alert_config demo_snapshot_200)).1
      = ["queue_depth_critical"] ∧
    "queue_depth_warning"
      ∉ latch_keys (emit_alert_hooks true []
        (build_alerts default_ops_alert_config demo_snapshot_200)).1 := by
  have hb : build_alerts default_ops_alert_config demo_snapshot_200
      = [{ id := "queue_depth_critical", severity := "critical",
           message := "Task queue depth is critical",
           value := 200, threshold := 150 }] := by
    norm_num [build_alerts, default_ops_alert_config, demo_snapshot_200]
  refine ⟨by norm_num [default_ops_alert_config, demo_snapshot_200], ?_, ?_⟩
  · rw [hb]
    simp [emit_alert_hooks, emit_phase1, latch_set, latch_keys]
  · rw [hb]
    simp [emit_alert_hooks, emit_phase1, latch_set, latch_keys]

open Ops in
/-- C8 amended: after an evaluation against snapshot `snap`, (i) an id is
in the latch iff it is among the ids built by `_build_alerts` — which
matches threshold violation for five alerts, but `queue_depth_warning` is
present iff the warning threshold is met AND the critical one is not
(the `elif`); and (ii) each absent-to-present transition emits exactly one
`triggered` webhook call and each present-to-absent transition exactly
one `resolved` webhook call for that id. -/
theorem alert_latch_amended (cfg : OpsAlertConfig) (snap : OpsSnapshot)
    (latch : List (String × Alert)) (hnd : (latch_keys latch).Nodup) :
    (∀ i, i ∈ latch_keys
          (emit_alert_hooks true latch (build_alerts cfg snap)).1
        ↔ i ∈ alert_ids cfg snap) ∧
    ("queue_depth_critical" ∈ alert_ids cfg snap
        ↔ cfg.queue_depth_crit ≤ snap.queue.queue_size) ∧
    ("queue_depth_warning" ∈ alert_ids cfg snap
        ↔ (cfg.queue_depth_warn ≤ snap.queue.queue_size
            ∧ snap.queue.queue_size < cfg.queue_depth_crit)) ∧
    ("queue_failed_tasks" ∈ alert_ids cfg snap
        ↔ cfg.queue_failed_warn ≤ snap.queue.failed) ∧
    ("websocket_stale_connections" ∈ alert_ids cfg snap
        ↔ cfg.ws_stale_count_warn ≤ snap.websocket.stale_connections) ∧
    ("forex_rate_failure_streak" ∈ alert_ids cfg snap
        ↔ cfg.forex_failure_streak_warn ≤ snap.forex.rate_failure_streak) ∧
    ("forex_retry_backoff_high" ∈ alert_ids cfg snap
        ↔ (cfg.forex_retry_warn_seconds : ℚ)
            ≤ snap.forex.next_rates_retry_in_seconds) ∧
    (∀ i, List.count (HookEvent.triggered i)
          (emit_alert_hooks true latch (build_alerts cfg snap)).2
        = if i ∈ alert_ids cfg snap ∧ i ∉ latch_keys latch
          then 1 else 0) ∧
    (∀ i, List.count (HookEvent.resolved i)
          (emit_alert_hooks true latch (build_alerts cfg snap)).2
        = if i ∈ latch_keys latch ∧ i ∉ alert_ids cfg snap
          then 1 else 0) := by
  have hids : alert_ids cfg snap
      = (build_alerts cfg snap).map (fun a => a.id) := rfl
  have hnodup_ids : ((build_alerts cfg snap).map (fun a => a.id)).Nodup := by
    rw [← hids]
    exact alert_ids_nodup cfg snap
  have hunfold : emit_alert_hooks true latch (build_alerts cfg snap)
      = ((emit_phase1 latch (build_alerts cfg snap)).1.filter
          (fun e => ((build_alerts cfg snap).map (fun a => a.id)).contains e.1),
        (emit_phase1 latch (build_alerts cfg snap)).2
          ++ ((latch_keys (emit_phase1 latch (build_alerts cfg snap)).1).filter
              (fun k =>
                ! ((build_alerts cfg snap).map (fun a => a.id)).contains k)).map
            (fun k => HookEvent.resolved k)) := rfl
  refine ⟨?_, ?_, ?_, ?_, ?_, ?_, ?_, ?_, ?_⟩
  · intro i
    rw [hunfold, hids]
    constructor
    · intro h
      simp only [latch_keys, List.mem_map] at h
      rcases h with ⟨e, he, rfl⟩
      have := (List.mem_filter.mp he).2
      simpa using this
    · intro h
      have hmem : i ∈ latch_keys (emit_phase1 latch (build_alerts cfg snap)).1 :=
        (emit_phase1_keys_mem (build_alerts cfg snap) latch i).mpr (Or.inr h)
      simp only [latch_keys, List.mem_map] at hmem ⊢
      rcases hmem with ⟨e, he, rfl⟩
      exact ⟨e, List.mem_filter.mpr ⟨he, by simpa using h⟩, rfl⟩
  · exact mem_alert_ids_queue_crit cfg snap
  · exact mem_alert_ids_queue_warn cfg snap
  · exact mem_alert_ids_queue_failed cfg snap
  · exact mem_alert_ids_ws_stale cfg snap
  · exact mem_alert_ids_forex_streak cfg snap
  · exact mem_alert_ids_forex_retry cfg snap
  · intro i
    rw [hunfold, hids]
    simp only [List.count_append]
    rw [emit_phase1_triggered_count (build_alerts cfg snap) latch i hnodup_ids]
    rw [count_map_resolved_triggered, Nat.add_zero]
  · intro i
    rw [hunfold, hids]
    simp only [List.count_append]
    have h1 : List.count (HookEvent.resolved i)
        (emit_phase1 latch (build_alerts cfg snap)).2 = 0 :=
      List.count_eq_zero.mpr
        (emit_phase1_no_resolved (build_alerts cfg snap) latch i)
    rw [h1, count_map_resolved]
    have hknd : (latch_keys (emit_phase1 latch (build_alerts cfg snap)).1).Nodup :=
      emit_phase1_keys_nodup (build_alerts cfg snap) latch hnd
    have hfnd : ((latch_keys (emit_phase1 latch (build_alerts cfg snap)).1).filter
        (fun k =>
          ! ((build_alerts cfg snap).map (fun a => a.id)).contains k)).Nodup :=
      hknd.filter _
    have hmem_iff : i ∈ (latch_keys
          (emit_phase1 latch (build_alerts cfg snap)).1).filter
          (fun k =>
            ! ((build_alerts cfg snap).map (fun a => a.id)).contains k)
        ↔ (i ∈ latch_keys latch
            ∧ i ∉ (build_alerts cfg snap).map (fun a => a.id)) := by
      rw [List.mem_filter]
      rw [emit_phase1_keys_mem (build_alerts cfg snap) latch i]
      constructor
      · rintro ⟨hor, hnot⟩
        have hni : i ∉ (build_alerts cfg snap).map (fun a => a.id) := by
          simpa using hnot
        rcases hor with h | h
        · exact ⟨h, hni⟩
        · exact absurd h hni
      · rintro ⟨hl, hni⟩
        exact ⟨Or.inl hl, by simpa using hni⟩
    by_cases hmem : i ∈ (latch_keys
        (emit_phase1 latch (build_alerts cfg snap)).1).filter
        (fun k =>
          ! ((build_alerts cfg snap).map (fun a => a.id)).contains k)
    · rw [List.count_eq_one_of_mem hfnd hmem, zero_add,
        if_pos (hmem_iff.mp hmem)]
    · rw [List.count_eq_zero_of_not_mem hmem, zero_add, if_neg]
      intro hcon
      exact hmem (hmem_iff.mpr hcon)

open Ops in
/-- Witness for the amended C8 theorem: instantiated with the empty latch
and the overloaded-queue snapshot. -/
theorem alert_latch_amended_witness :
    (latch_keys ([] : List (String × Alert))).Nodup ∧
    ("queue_depth_critical"
        ∈ alert_ids default_ops_alert_config demo_snapshot_200
      ↔ default_ops_alert_config.queue_depth_crit
          ≤ demo_snapshot_200.queue.queue_size) :=
  ⟨List.nodup_nil,
    (alert_latch_amended default_ops_alert_config demo_snapshot_200 []
      List.nodup_nil).2.1⟩

/-! ## Websocket heartbeat

Embedding of the receive loop of `websocket_endpoint`
(`app/websocket_routes.py:26`) and the registry effects of
`EnhancedWebSocketManager` (`app/enhanced_websocket_manager.py`).  Only
the state the heartbeat claim concerns is modelled: `connection_registry`
and `websocket_to_connection_id` (the `active_connections` /
`all_connections` socket sets carry no timestamps).  Timestamps are
rationals standing for `datetime.now().isoformat()` instants; sockets
are identified by `id(websocket)` as naturals.
-/

namespace Websocket

/-- One `connection_registry` value (the fields the heartbeat logic
touches). -/
structure ConnMeta where
  connection_id : String
  task_id : String
  last_seen : ℚ
deriving DecidableEq, Repr

structure WSState where
  registry : List (String × ConnMeta)
  socket_to_connection : List (ℕ × String)
deriving DecidableEq, Repr

/-- `self.websocket_to_connection_id.get(id(websocket))`. -/
def lookup_socket (st : WSState) (sock : ℕ) : Option String :=
  (st.socket_to_connection.find? (fun e => e.1 == sock)).map (fun e => e.2)

/-- `self.connection_registry.get(connection_id)`. -/
def lookup_registry (st : WSState) (cid : String) : Option ConnMeta :=
  (st.registry.find? (fun e => e.1 == cid)).map (fun e => e.2)

/-- `mark_connection_alive` (`enhanced_websocket_manager.py:112`): look
up the connection id for the socket; if present and registered, set that
entry=s `last_seen` to now (the Redis patch it schedules mirrors the
same value and is not modelled). -/
def mark_connection_alive (st : WSState) (sock : ℕ) (now : ℚ) : WSState :=
  match lookup_socket st sock with
  | none => st
  | some cid =>
    { st with
      registry := st.registry.map (fun e =>
        if e.1 == cid then (e.1, { e.2 with last_seen := now }) else e) }

/-- Registry effects of `disconnect` (`enhanced_websocket_manager.py:84`):
pop the socket mapping and delete the registry entry if one exists. -/
def disconnect_ws (st : WSState) (sock : ℕ) : WSState :=
  match lookup_socket st sock with
  | none => st
  | some cid =>
    { registry := st.registry.filter (fun e => ! (e.1 == cid)),
      socket_to_connection :=
        st.socket_to_connection.filter (fun e => ! (e.1 == sock)) }

/-- A frame sent back on the socket: `send_text` text, or the JSON
update dict of `send_update` (identified by its `message` field). -/
inductive ServerReply where
  | text (s : String)
  | update (message : String)
deriving DecidableEq, Repr

/-- One iteration of the `websocket_endpoint` receive loop
(`websocket_routes.py:35`): on the literal `"ping"` reply `"pong"` and
return — `mark_connection_alive` is never called on this path; on any
other text, `ws_manager.send_update(websocket=websocket)` sends the
`Received: ...` update and, if the send succeeds (`send_ok`), marks the
connection alive, else disconnects it (`send_failure`). -/
def websocket_endpoint_message (st : WSState) (sock : ℕ)
    (data : String) (now : ℚ) (send_ok : Bool) :
    WSState × List ServerReply :=
  if data == "ping" then
    (st, [ServerReply.text "pong"])
  else if send_ok then
    (mark_connection_alive st sock now,
      [ServerReply.update ("Received: " ++ data)])
  else
    (disconnect_ws st sock, [])

def demo_conn_meta : ConnMeta :=
  { connection_id := "c1", task_id := "t1", last_seen := 5 }

def demo_ws_state : WSState :=
  { registry := [("c1", demo_conn_meta)],
    socket_to_connection := [(1, "c1")] }

end Websocket

open Websocket in
/-- C4 counterexample: a registered session (socket 1, connection `c1`,
`last_seen = 5`) receives `"ping"` at time 10: the server replies
`"pong"` but the whole registry state — in particular `last_seen` — is
unchanged, staying 5 ≠ 10; `mark_connection_alive` at that moment would
have set it to 10, showing the ping path simply skips the touch. -/
theorem websocket_ping_counterexample :
    (websocket_endpoint_message demo_ws_state 1 "ping" 10 true).2
      = [ServerReply.text "pong"] ∧
    (websocket_endpoint_message demo_ws_state 1 "ping" 10 true).1
      = demo_ws_state ∧
    lookup_registry demo_ws_state "c1" = some demo_conn_meta ∧
    demo_conn_meta.last_seen = 5 ∧
    (5 : ℚ) ≠ 10 ∧
    lookup_registry (mark_connection_alive demo_ws_state 1 10) "c1"
      = some { demo_conn_meta with last_seen := 10 } := by
  refine ⟨?_, ?_, ?_, ?_, ?_, ?_⟩
  · decide
  · decide
  · decide
  · norm_num [demo_conn_meta]
  · norm_num
  · decide

open Websocket in
/-- C4 amended: on `"ping"` the endpoint answers `"pong"` and leaves the
connection state (hence `last_seen`) untouched; on any other inbound
text whose send succeeds, the endpoint sends the `Received:` update and
it is that path which refreshes `last_seen` via `mark_connection_alive`. -/
theorem websocket_ping_amended (st : WSState) (sock : ℕ)
    (data : String) (now : ℚ) :
    (websocket_endpoint_message st sock "ping" now true
      = (st, [ServerReply.text "pong"])) ∧
    ((data == "ping") = false →
      websocket_endpoint_message st sock data now true
        = (mark_connection_alive st sock now,
            [ServerReply.update ("Received: " ++ data)])) := by
  constructor
  · simp [websocket_endpoint_message]
  · intro h
    simp [websocket_endpoint_message, h]

open Websocket in
/-- Witness for the amended C4 theorem at a concrete non-ping message. -/
theorem websocket_ping_amended_witness :
    ("hello" == "ping") = false ∧
    websocket_endpoint_message demo_ws_state 1 "hello" 10 true
      = (mark_connection_alive demo_ws_state 1 10,
          [ServerReply.update ("Received: " ++ "hello")]) :=
  ⟨by decide,
    (websocket_ping_amended demo_ws_state 1 "hello" 10).2 (by decide)⟩

end ForexBackend
